import Mathlib

/-
Verification of the MyoIMUGestureController library against its
natural-language specification.

The development shallowly embeds the C++ sources:
  src/include/gestureAnalysis.cpp  (sample cache and gesture classifier)
  src/include/matrix.cpp           (3x3 matrix utilities)
  src/MyoIMUGestureController.cpp  (recording and sync state machine)
C floats are modelled as real numbers.  Where IEEE semantics matter
(division by zero producing NaN or infinity, whose comparisons with any
constant are false or true respectively), the embedding encodes the
resulting branch outcome explicitly; each such place carries a comment.
-/

open Classical

noncomputable section

/-! ## Gesture types (gestureAnalysis.h) -/

inductive GestureType where
  | ARM_UP
  | ARM_DOWN
  | ARM_LEFT
  | ARM_RIGHT
  | ARM_CIRCLE_CW
  | ARM_CIRCLE_CCW
  | ARM_ROTATE_CW
  | ARM_ROTATE_CCW
  | ARM_UNKNOWN
deriving DecidableEq, Repr

open GestureType

/-! ## Configuration constants (gestureAnalysis.h, MyoIMUGestureController.h) -/

def GESTURE_CACHE_SIZE : ℕ := 128

def STRAIGHT_MAX_RELATION : ℝ := 0.5

def STRAIGHT_MIN_DISTANCE : ℝ := 0.3

def Y_DEVIATION_CORRECTION : ℝ := 1.3

def GESTURE_CIRCLE_SAMPLES : ℕ := 10

def CIRCLE_MIN_DIAMETER : ℝ := 0.65

def CIRCLE_MAX_DEVIATION : ℝ := 0.3

def MAX_ENDS_DISCANCE : ℝ := 0.4

def ROTATION_MAX_VARIANCE : ℝ := 0.15

noncomputable def ROTATION_MIN_ANGLE : ℝ := Real.pi / 6

/-! ## Small helpers (gestureAnalysis.cpp lines 37-43, 81-83) -/

def clip (n lower upper : ℝ) : ℝ := max lower (min n upper)

def sqr (a : ℝ) : ℝ := a * a

def getSqrPointDist (x1 y1 x2 y2 : ℝ) : ℝ := sqr (x1 - x2) + sqr (y1 - y2)

/-! ## The gesture cache (gestureAnalysis.cpp lines 19-22)

The C code keeps a flat float array `gesture_cache` of
GESTURE_CACHE_SIZE cells, a write offset `gesture_cache_offset` and the
scalar `gesture_roll_angle`.  The array is modelled as a total function
from cell index to the stored value; only cells below the offset are
ever read by the code. -/

structure CacheState where
  gesture_cache : ℕ → ℝ
  gesture_cache_offset : ℕ
  gesture_roll_angle : ℝ

/-- startup state: static float array (zero-initialised), offset 0, roll 0. -/
def initCacheState : CacheState :=
  { gesture_cache := fun _ => 0, gesture_cache_offset := 0, gesture_roll_angle := 0 }

/-- resetGestureCache (gestureAnalysis.cpp lines 55-58): offset and roll go to
zero; the array contents are left in place, exactly as in the source. -/
def resetGestureCache (s : CacheState) : CacheState :=
  { s with gesture_cache_offset := 0, gesture_roll_angle := 0 }

/-- gestureBufferFull (gestureAnalysis.cpp lines 63-65). -/
def gestureBufferFull (s : CacheState) : Prop :=
  s.gesture_cache_offset = GESTURE_CACHE_SIZE

instance (s : CacheState) : Decidable (gestureBufferFull s) :=
  inferInstanceAs (Decidable (s.gesture_cache_offset = GESTURE_CACHE_SIZE))

/-- updateGestureCache (gestureAnalysis.cpp lines 70-79): if the offset is
below capacity, store asin(clip(x)) and asin(clip(y)) at the offset and
advance it by 2; the roll angle is overwritten unconditionally. -/
def updateGestureCache (s : CacheState) (x y roll_angle : ℝ) : CacheState :=
  if s.gesture_cache_offset < GESTURE_CACHE_SIZE then
    { gesture_cache := fun k =>
        if k = s.gesture_cache_offset then Real.arcsin (clip x (-0.99999) 0.99999)
        else if k = s.gesture_cache_offset + 1 then Real.arcsin (clip y (-0.99999) 0.99999)
        else s.gesture_cache k,
      gesture_cache_offset := s.gesture_cache_offset + 2,
      gesture_roll_angle := roll_angle }
  else
    { s with gesture_roll_angle := roll_angle }

/-! ## The classifier processCacheData (gestureAnalysis.cpp lines 88-280)

The C function captures num_points = offset/2, zeroes the offset, then
runs a cascade of early-return tests over the cached points.  The
cascade is embedded as Option-valued stages; the state effect (offset
cleared) is separated into processCacheDataOp below. -/

def num_points (c : CacheState) : ℕ := c.gesture_cache_offset / 2

/-- point i of the cache, the pair (gesture_cache[2i], gesture_cache[2i+1]). -/
def point (c : CacheState) (i : ℕ) : ℝ × ℝ :=
  (c.gesture_cache (2 * i), c.gesture_cache (2 * i + 1))

/-- index stride between circle sample points (line 103, C integer division). -/
def index_offset (c : CacheState) : ℕ := num_points c / GESTURE_CIRCLE_SAMPLES

/-- sample point j, read at gesture_cache[2*j*index_offset] (lines 114-115). -/
def samplePoint (c : CacheState) (j : ℕ) : ℝ × ℝ := point c (j * index_offset c)

def pointDist (p q : ℝ × ℝ) : ℝ := Real.sqrt (getSqrPointDist p.1 p.2 q.1 q.2)

/-- greatest distance from sample point j to any cached point, accumulated
from 0 by a running maximum (lines 120-130). -/
def sample_point_diameter (c : CacheState) (j : ℕ) : ℝ :=
  ((List.range (num_points c)).map (fun i => pointDist (samplePoint c j) (point c i))).foldl max 0

/-- x coordinate of the estimated circle center (lines 118, 134). -/
def center_x (c : CacheState) : ℝ :=
  (∑ j ∈ Finset.range GESTURE_CIRCLE_SAMPLES, (samplePoint c j).1) / (GESTURE_CIRCLE_SAMPLES : ℝ)

/-- y coordinate of the estimated circle center (lines 119, 135). -/
def center_y (c : CacheState) : ℝ :=
  (∑ j ∈ Finset.range GESTURE_CIRCLE_SAMPLES, (samplePoint c j).2) / (GESTURE_CIRCLE_SAMPLES : ℝ)

/-- average circle radius: the sample-point diameters summed and divided by
GESTURE_CIRCLE_SAMPLES * 2 (lines 146-151). -/
def average_radius (c : CacheState) : ℝ :=
  (∑ j ∈ Finset.range GESTURE_CIRCLE_SAMPLES, sample_point_diameter c j) /
    ((GESTURE_CIRCLE_SAMPLES : ℝ) * 2)

/-- deviation of the point-to-center distances from the average radius
(lines 154-162, 182): sqrt of the mean squared difference. -/
def circular_deviation (c : CacheState) : ℝ :=
  Real.sqrt ((∑ i ∈ Finset.range (num_points c),
    sqr (pointDist (center_x c, center_y c) (point c i) - average_radius c)) / (num_points c : ℝ))

/-- distance between first and last cached point (lines 185-186). -/
def ends_distance (c : CacheState) : ℝ :=
  pointDist (point c 0) (point c (num_points c - 1))

/-- running extrema trackers of the loop in lines 138-179.  The C code
starts from x_max = 0 (index 0), x_min = 1000 (index 0), y_max = 0
(index 0) and updates on strict improvement, so e.g. x_max_index stays 0
when every x coordinate is nonpositive; the embedding reproduces that. -/
structure Extrema where
  x_max : ℝ
  x_max_index : ℕ
  x_min : ℝ
  x_min_index : ℕ
  y_max : ℝ
  y_max_index : ℕ

def updateExtrema (e : Extrema) (i : ℕ) (p : ℝ × ℝ) : Extrema :=
  let e1 := if p.1 > e.x_max then { e with x_max := p.1, x_max_index := i } else e
  let e2 := if p.1 < e1.x_min then { e1 with x_min := p.1, x_min_index := i } else e1
  if p.2 > e2.y_max then { e2 with y_max := p.2, y_max_index := i } else e2

def extrema (c : CacheState) : Extrema :=
  (List.range (num_points c)).foldl (fun e i => updateExtrema e i (point c i))
    { x_max := 0, x_max_index := 0, x_min := 1000, x_min_index := 0, y_max := 0, y_max_index := 0 }

/-- clockwise determination from the cyclic order of the tracked indices
(lines 189-199); a bool in the source. -/
def clockwise (c : CacheState) : Bool :=
  let e := extrema c
  (decide (e.x_min_index < e.y_max_index) && decide (e.y_max_index < e.x_max_index)) ||
  (decide (e.y_max_index < e.x_max_index) && decide (e.x_max_index < e.x_min_index)) ||
  (decide (e.x_max_index < e.x_min_index) && decide (e.x_min_index < e.y_max_index))

/-- acceptance condition of the circle test (line 202). -/
def circleConditions (c : CacheState) : Prop :=
  average_radius c * 2 ≥ CIRCLE_MIN_DIAMETER ∧
  circular_deviation c ≤ CIRCLE_MAX_DEVIATION ∧
  ends_distance c ≤ MAX_ENDS_DISCANCE

/-- the circle test, lines 100-209: run only when index_offset ≥ 1, i.e. when
num_points ≥ GESTURE_CIRCLE_SAMPLES; returns a label on acceptance. -/
def circleStage (c : CacheState) : Option GestureType :=
  if 1 ≤ index_offset c then
    if circleConditions c then
      some (if clockwise c then ARM_CIRCLE_CW else ARM_CIRCLE_CCW)
    else none
  else none

/-- total signed x displacement (lines 215, 222). -/
def x_total (c : CacheState) : ℝ :=
  ∑ i ∈ Finset.range (num_points c), (point c i).1

/-- total signed y displacement (lines 216, 223). -/
def y_total (c : CacheState) : ℝ :=
  ∑ i ∈ Finset.range (num_points c), (point c i).2

/-- x deviation: mean of the squared x coordinates (lines 225, 230). -/
def x_deviation (c : CacheState) : ℝ :=
  (∑ i ∈ Finset.range (num_points c), sqr (point c i).1) / (num_points c : ℝ)

/-- y deviation: mean of the squared y coordinates, multiplied by the
correction factor (lines 226, 231, 234). -/
def y_deviation (c : CacheState) : ℝ :=
  ((∑ i ∈ Finset.range (num_points c), sqr (point c i).2) / (num_points c : ℝ)) *
    Y_DEVIATION_CORRECTION

/-- deviation relation x_deviation / y_deviation (line 237). -/
def relation (c : CacheState) : ℝ := x_deviation c / y_deviation c

/-- distance of the last cached point from the origin (line 257).  At
num_points = 0 the C code reads out of bounds here; every use below is
guarded by 0 < num_points, so that case never influences a result. -/
def distance (c : CacheState) : ℝ :=
  Real.sqrt (getSqrPointDist 0 0 (point c (num_points c - 1)).1 (point c (num_points c - 1)).2)

/-- acceptance condition of the rotation test (line 244).  When
num_points = 0 the C code divides 0 by 0 at lines 230-231, the
deviations are NaN and every comparison at line 244 is false; the
conjunct 0 < num_points encodes exactly that outcome. -/
def rotationConditions (c : CacheState) : Prop :=
  0 < num_points c ∧
  x_deviation c ≤ ROTATION_MAX_VARIANCE ∧
  y_deviation c ≤ ROTATION_MAX_VARIANCE ∧
  sqr c.gesture_roll_angle > sqr ROTATION_MIN_ANGLE

/-- the rotation test, lines 244-250. -/
def rotationStage (c : CacheState) : Option GestureType :=
  if rotationConditions c then
    some (if c.gesture_roll_angle < 0 then ARM_ROTATE_CW else ARM_ROTATE_CCW)
  else none

/-- acceptance condition for horizontal movement (line 260).  When
y_deviation = 0 and x_deviation > 0 the C float relation is +infinity
and the comparison relation > 1/STRAIGHT_MAX_RELATION is true; the
disjunct y_deviation c = 0 encodes that (under the first conjunct
x_deviation > y_deviation = 0).  When num_points = 0 the deviations are
NaN in C and the test is false, encoded by the conjunct 0 < num_points. -/
def horizontalConditions (c : CacheState) : Prop :=
  0 < num_points c ∧
  x_deviation c > y_deviation c ∧
  (y_deviation c = 0 ∨ relation c > 1 / STRAIGHT_MAX_RELATION) ∧
  distance c ≥ STRAIGHT_MIN_DISTANCE

/-- acceptance condition for vertical movement (line 269).  Here
y_deviation > x_deviation ≥ 0 forces y_deviation > 0, so the C float
relation is an ordinary quotient and no NaN or infinity case arises. -/
def verticalConditions (c : CacheState) : Prop :=
  0 < num_points c ∧
  y_deviation c > x_deviation c ∧
  relation c < STRAIGHT_MAX_RELATION ∧
  distance c ≥ STRAIGHT_MIN_DISTANCE

/-- the straight-movement tests, lines 260-275. -/
def straightStage (c : CacheState) : Option GestureType :=
  if horizontalConditions c then
    some (if x_total c > 0 then ARM_RIGHT else ARM_LEFT)
  else if verticalConditions c then
    some (if y_total c > 0 then ARM_UP else ARM_DOWN)
  else none

/-- processCacheData, result value (lines 88-280): the cascade circle,
rotation, straight movement, otherwise ARM_UNKNOWN. -/
def processCacheData (c : CacheState) : GestureType :=
  match circleStage c with
  | some g => g
  | none =>
    match rotationStage c with
    | some g => g
    | none =>
      match straightStage c with
      | some g => g
      | none => ARM_UNKNOWN

/-- processCacheData as a state operation: it returns the label and zeroes
gesture_cache_offset (line 93); the array and the roll angle stay. -/
def processCacheDataOp (c : CacheState) : GestureType × CacheState :=
  (processCacheData c, { c with gesture_cache_offset := 0 })

/-- the set of zero divisors hit by a call of processCacheData: if the
circle stage returns, no division has a zero divisor; otherwise the
means at lines 230-231 divide by num_points and the relation at line 237
divides by y_deviation.  Divisions by the nonzero constants 10 and 20 in
the circle block are never by zero.  At num_points = 0, y_deviation in C
is NaN rather than 0, so only num_points itself is a zero divisor there;
the disjunction below is nevertheless exact because its first disjunct
already covers that case. -/
def zeroDivisorHit (c : CacheState) : Prop :=
  circleStage c = none ∧ (num_points c = 0 ∨ y_deviation c = 0)

/-! ## Claim C1: empty and near-empty caches

A cache with a single stored point (0, 0) and roll angle 1.  Such a
state arises from one updateGestureCache call on a reset cache; the
classifier reaches the rotation test on it. -/

def c1ex : CacheState :=
  { gesture_cache := fun _ => 0, gesture_cache_offset := 2, gesture_roll_angle := 1 }

/-! ## Claims C5 and C6: cache operations and the offset invariant -/

/-- a sequence of updateGestureCache calls. -/
def pushList (s : CacheState) (l : List (ℝ × ℝ × ℝ)) : CacheState :=
  l.foldl (fun t p => updateGestureCache t p.1 p.2.1 p.2.2) s

/-- a full cache used to instantiate the full-push parts of C5 and C6. -/
def fullCacheEx : CacheState :=
  { gesture_cache := fun _ => 0, gesture_cache_offset := GESTURE_CACHE_SIZE,
    gesture_roll_angle := 0 }

/-- the cache offset invariant of C6. -/
def cacheInv (s : CacheState) : Prop :=
  s.gesture_cache_offset % 2 = 0 ∧ s.gesture_cache_offset ≤ GESTURE_CACHE_SIZE

/-! ## 3x3 matrices (matrix.cpp)

Matrix33 is a float[3][3] in the source; here a structure with one real
field per entry. -/

structure Matrix33 where
  m00 : ℝ
  m01 : ℝ
  m02 : ℝ
  m10 : ℝ
  m11 : ℝ
  m12 : ℝ
  m20 : ℝ
  m21 : ℝ
  m22 : ℝ

def ZERO_MATRIX : Matrix33 := ⟨0, 0, 0, 0, 0, 0, 0, 0, 0⟩

/-- multiply_matrix (matrix.cpp lines 69-79). -/
def multiply_matrix (a b : Matrix33) : Matrix33 :=
  ⟨a.m00 * b.m00 + a.m01 * b.m10 + a.m02 * b.m20,
   a.m00 * b.m01 + a.m01 * b.m11 + a.m02 * b.m21,
   a.m00 * b.m02 + a.m01 * b.m12 + a.m02 * b.m22,
   a.m10 * b.m00 + a.m11 * b.m10 + a.m12 * b.m20,
   a.m10 * b.m01 + a.m11 * b.m11 + a.m12 * b.m21,
   a.m10 * b.m02 + a.m11 * b.m12 + a.m12 * b.m22,
   a.m20 * b.m00 + a.m21 * b.m10 + a.m22 * b.m20,
   a.m20 * b.m01 + a.m21 * b.m11 + a.m22 * b.m21,
   a.m20 * b.m02 + a.m21 * b.m12 + a.m22 * b.m22⟩

/-- the determinant expansion of inverse_matrix (matrix.cpp lines 100-102). -/
def matrix_determinant (m : Matrix33) : ℝ :=
  m.m00 * (m.m11 * m.m22 - m.m21 * m.m12) -
  m.m01 * (m.m10 * m.m22 - m.m12 * m.m20) +
  m.m02 * (m.m10 * m.m21 - m.m11 * m.m20)

/-- inverse_matrix (matrix.cpp lines 98-115).  As in the source there is
no guard against a zero determinant; real division by zero yields 0
here where C would produce infinities, a case no claim exercises. -/
def inverse_matrix (m : Matrix33) : Matrix33 :=
  let invdet := 1 / matrix_determinant m
  ⟨(m.m11 * m.m22 - m.m21 * m.m12) * invdet,
   (m.m02 * m.m21 - m.m01 * m.m22) * invdet,
   (m.m01 * m.m12 - m.m02 * m.m11) * invdet,
   (m.m12 * m.m20 - m.m10 * m.m22) * invdet,
   (m.m00 * m.m22 - m.m02 * m.m20) * invdet,
   (m.m10 * m.m02 - m.m00 * m.m12) * invdet,
   (m.m10 * m.m21 - m.m20 * m.m11) * invdet,
   (m.m20 * m.m01 - m.m00 * m.m21) * invdet,
   (m.m00 * m.m11 - m.m10 * m.m01) * invdet⟩

/-- Modelled from the spec: the scaling constant of the external
MyoBridge library dividing the raw quaternion components (spec section 6
describes the components as scaled by a known constant; the library is
outside this repository). -/
def MYOHW_ORIENTATION_SCALE : ℝ := 16384

/-- unit_quaternion_to_matrix (matrix.cpp lines 121-141). -/
def unit_quaternion_to_matrix (quat : Fin 4 → ℤ) : Matrix33 :=
  let x := clip ((quat 0 : ℝ) / MYOHW_ORIENTATION_SCALE) (-0.999999) 0.999999
  let y := clip ((quat 1 : ℝ) / MYOHW_ORIENTATION_SCALE) (-0.999999) 0.999999
  let z := clip ((quat 2 : ℝ) / MYOHW_ORIENTATION_SCALE) (-0.999999) 0.999999
  let w := clip ((quat 3 : ℝ) / MYOHW_ORIENTATION_SCALE) (-0.999999) 0.999999
  ⟨1 - 2*y*y - 2*z*z, 2*x*y - 2*w*z, 2*x*z + 2*w*y,
   2*x*y + 2*w*z, 1 - 2*x*x - 2*z*z, 2*y*z - 2*w*x,
   2*x*z - 2*w*y, 2*y*z + 2*w*x, 1 - 2*x*x - 2*y*y⟩

/-! ## The recording and sync controller (MyoIMUGestureController.cpp) -/

def EMG_CACHE_SIZE : ℕ := 10

def EMG_SYNC_TIME : ℕ := 3000

def AFTER_SYNC_WAIT : ℕ := 500

def LOCK_TOGGLE_THRESHOLD : ℝ := 0.5

/-- the static members of MyoIMUGestureController (lines 26-44) together
with the gesture cache globals it drives.  The EMG cache is the list of
the last EMG_CACHE_SIZE 8-channel vectors, newest first, exactly the
shift order of updateCache. -/
structure CtrlState where
  inverseInitMatrix : Matrix33
  refresh_init : Bool
  emgCache : List (Fin 8 → ℤ)
  emgSum : ℤ
  emgSync : ℤ
  isEMGSynced : Bool
  lock_toggle : Bool
  locked : Bool
  timeConnected : ℕ
  cache : CacheState

/-- observable effects of a handler call: the two callbacks and the
vibration command. -/
inductive Output where
  | lockChange (b : Bool)
  | gestureEvt (g : GestureType)
  | vibrate (n : ℕ)
deriving DecidableEq

/-- an input event: one EMG or one IMU sample, with the millis() value
the handler observes. -/
inductive Ev where
  | emg (data : Fin 8 → ℤ) (now : ℕ)
  | imu (quat : Fin 4 → ℤ) (now : ℕ)

def absSum (v : Fin 8 → ℤ) : ℤ := ∑ j, |v j|

def emgCacheSum (l : List (Fin 8 → ℤ)) : ℤ := (l.map absSum).sum

/-- updateCache (MyoIMUGestureController.cpp lines 154-162): shift the
window by one, insert the new vector in front, recompute the total
absolute sum. -/
def updateCache (s : CtrlState) (data : Fin 8 → ℤ) : CtrlState :=
  let cache1 := data :: s.emgCache.take (EMG_CACHE_SIZE - 1)
  { s with emgCache := cache1, emgSum := emgCacheSum cache1 }

/-- the sync bookkeeping of handleEMGData (lines 182-197), applied to
the state after the window update and the first-sample timer start. -/
def emgSyncPhase (s2 : CtrlState) (now : ℕ) : CtrlState × List Output :=
  if s2.timeConnected + EMG_SYNC_TIME > now then
    (if s2.emgSum > s2.emgSync then { s2 with emgSync := s2.emgSum } else s2, [])
  else
    if s2.isEMGSynced = false then
      ({ s2 with isEMGSynced := true }, [Output.vibrate 1])
    else (s2, [])

/-- the first-sample timer start of handleEMGData (lines 174-180). -/
def emgTimerStart (s1 : CtrlState) (now : ℕ) : CtrlState :=
  if s1.timeConnected = 0 then { s1 with timeConnected := now } else s1

/-- handleEMGData (lines 167-198): update the window, start the sync
timer on the first sample, track the maximum sum while the sync window
is open, and flip isEMGSynced (with a short vibration) once afterwards. -/
def handleEMGData (s : CtrlState) (data : Fin 8 → ℤ) (now : ℕ) : CtrlState × List Output :=
  emgSyncPhase (emgTimerStart (updateCache s data) now) now

/-- the line 102 comparison (float)emgSum / (float)emgSync <
LOCK_TOGGLE_THRESHOLD.  With emgSync = 0 the C quotient is an infinity
or NaN (emgSum is a sum of absolute values, hence nonnegative) and the
comparison is false; the first conjunct encodes that. -/
def ratioBelow (s : CtrlState) : Prop :=
  ¬(s.emgSync = 0) ∧ (s.emgSum : ℝ) / (s.emgSync : ℝ) < LOCK_TOGGLE_THRESHOLD

/-- the line 100 guard: locking is evaluated only once synced and past
the settle delay. -/
def pastSyncWindow (s : CtrlState) (now : ℕ) : Prop :=
  s.isEMGSynced = true ∧ s.timeConnected + EMG_SYNC_TIME + AFTER_SYNC_WAIT < now

/-- handleIMUData (lines 81-149).  The orientation matrix is built from
the quaternion; on refresh_init its inverse becomes the reference; the
local orientation is matrix times reference; roll is asin(local[1][0]).
Past the sync window the lock logic of lines 102-142 runs, and line 145
pushes the angles while the (possibly just toggled) locked flag is
false. -/
def handleIMUData (s : CtrlState) (quat : Fin 4 → ℤ) (now : ℕ) : CtrlState × List Output :=
  let matrix := unit_quaternion_to_matrix quat
  let inv0 := if s.refresh_init = true then inverse_matrix matrix else s.inverseInitMatrix
  let loc := multiply_matrix matrix inv0
  let roll_angle := Real.arcsin loc.m10
  let base : CtrlState := { s with inverseInitMatrix := inv0, refresh_init := false }
  if pastSyncWindow s now then
    if ratioBelow s then
      -- line 105: discard the recording when unlocked with a full buffer
      let discard := s.locked = false ∧ gestureBufferFull s.cache
      let cache1 := if discard then resetGestureCache s.cache else s.cache
      let lt1 : Bool := if discard then false else s.lock_toggle
      if lt1 = false then
        -- lines 113-124: toggle the lock
        let locked1 := !s.locked
        let cache2 := if locked1 = false then resetGestureCache cache1 else cache1
        let cache3 := if locked1 = false then
            updateGestureCache cache2 loc.m21 loc.m20 roll_angle else cache2
        ({ base with lock_toggle := true, locked := locked1, cache := cache3 },
          [Output.lockChange locked1])
      else
        let cache3 := if s.locked = false then
            updateGestureCache cache1 loc.m21 loc.m20 roll_angle else cache1
        ({ base with lock_toggle := lt1, cache := cache3 }, [])
    else
      -- lines 126-142: the pose is held
      if s.lock_toggle = true then
        if s.locked = false then
          -- classify the recording, then line 145 pushes into the cleared cache
          let g := processCacheData s.cache
          let cacheA := { s.cache with gesture_cache_offset := 0 }
          let cache3 := updateGestureCache cacheA loc.m21 loc.m20 roll_angle
          ({ base with refresh_init := true, lock_toggle := false, cache := cache3 },
            if g = ARM_UNKNOWN then [] else [Output.gestureEvt g])
        else
          ({ base with refresh_init := true, lock_toggle := false }, [])
      else
        let cache3 := if s.locked = false then
            updateGestureCache s.cache loc.m21 loc.m20 roll_angle else s.cache
        ({ base with cache := cache3 }, [])
  else
    (base, [])

def step (s : CtrlState) : Ev → CtrlState × List Output
  | Ev.emg d t => handleEMGData s d t
  | Ev.imu q t => handleIMUData s q t

def runFrom (s : CtrlState) (evs : List Ev) : CtrlState × List Output :=
  evs.foldl (fun p e => ((step p.1 e).1, p.2 ++ (step p.1 e).2)) (s, [])

def zeroVec : Fin 8 → ℤ := fun _ => 0

/-- startup state: the static initialisers of lines 26-44; `locked` has
no initialiser in the source and is zero-initialised to false as a
static, so the controller starts unlocked. -/
def initCtrlState : CtrlState :=
  { inverseInitMatrix := ZERO_MATRIX, refresh_init := true,
    emgCache := List.replicate EMG_CACHE_SIZE zeroVec,
    emgSum := 0, emgSync := 0, isEMGSynced := false,
    lock_toggle := true, locked := false, timeConnected := 0,
    cache := initCacheState }

/-! ## Concrete vectors, quaternions and matrices for the runs -/

def vec100 : Fin 8 → ℤ := fun _ => 100

def zeroQuat : Fin 4 → ℤ := fun _ => 0

def idMatrix : Matrix33 := ⟨1, 0, 0, 0, 1, 0, 0, 0, 1⟩

/-! ## Branch lemmas for handleIMUData

The reference matrix, the local orientation and the roll angle computed
by one handleIMUData call, named so that the branch lemmas below can
state the full successor state. -/

def imuInv (s : CtrlState) (q : Fin 4 → ℤ) : Matrix33 :=
  if s.refresh_init = true then inverse_matrix (unit_quaternion_to_matrix q)
  else s.inverseInitMatrix

def imuLocal (s : CtrlState) (q : Fin 4 → ℤ) : Matrix33 :=
  multiply_matrix (unit_quaternion_to_matrix q) (imuInv s q)

def imuRoll (s : CtrlState) (q : Fin 4 → ℤ) : ℝ := Real.arcsin (imuLocal s q).m10

/-! ## A concrete post-sync scenario

One strong EMG sample at time 5 calibrates emgSync = 800; ten zero EMG
samples at time 4000 complete the sync (first of them) and flush the
strong sample out of the smoothing window, leaving emgSum = 0, so every
later ratio is 0/800, below the toggle threshold.  All IMU samples use
the zero quaternion, whose orientation matrix is the identity, so every
recorded angle and roll is 0. -/

def belowState (o : ℕ) : CtrlState :=
  { inverseInitMatrix := idMatrix, refresh_init := false,
    emgCache := List.replicate 10 zeroVec, emgSum := 0, emgSync := 800,
    isEMGSynced := true, lock_toggle := true, locked := false, timeConnected := 5,
    cache := ⟨fun _ => 0, o, 0⟩ }

/-- the state right after the EMG prefix: like belowState 0 but the very
first IMU sample has not happened yet, so refresh_init is still true and
the reference matrix still the startup zero matrix. -/
def preImuState : CtrlState :=
  { belowState 0 with refresh_init := true, inverseInitMatrix := ZERO_MATRIX }

/-- the state after the overflow-forced re-lock. -/
def relockedState : CtrlState := { belowState 0 with locked := true }

/-- the EMG prefix: one strong sample during sync, ten zero samples
after the window. -/
def emgPrefixEvents : List Ev := Ev.emg vec100 5 :: List.replicate 10 (Ev.emg zeroVec 4000)

/-! ## Counterexample runs for claims C7 and C10 -/

/-- after the EMG prefix, 65 zero-quaternion IMU samples, all with the
smoothed ratio 0/800 below the toggle threshold: 64 of them fill the
cache, the 65th hits the overflow path and forces a re-lock toggle. -/
def c7TailEvents : List Ev :=
  Ev.imu zeroQuat 4100 :: (List.replicate 63 (Ev.imu zeroQuat 4100) ++ [Ev.imu zeroQuat 4100])

def c7Events : List Ev := emgPrefixEvents ++ c7TailEvents

/-- after the EMG prefix a single below-threshold IMU sample: the
controller, still in its startup unlocked state, records an angle pair
although no lock-toggle edge has ever occurred. -/
def c10Events : List Ev := emgPrefixEvents ++ [Ev.imu zeroQuat 4100]

/-! ## A cache holding one point (1, 0): the classifier answers ARM_RIGHT -/

def rightCache : CacheState :=
  ⟨fun k => if k = 0 then 1 else 0, 2, 0⟩

/-- a calibrated, unlocked state holding the pose (ratio 800/800) with
one recorded point (1, 0). -/
def heldRightState : CtrlState := { belowState 0 with cache := rightCache, emgSum := 800 }

/-- the state after the above-threshold IMU sample at heldRightState:
the pose flag is cleared, the reference refresh is armed, the cache has
been classified, cleared and holds the freshly pushed zero pair. -/
def edgeMidState : CtrlState :=
  { belowState 2 with refresh_init := true, emgSum := 800, lock_toggle := false }

/-- the state after one zero EMG sample from edgeMidState: the smoothed
sum has dropped to 0, so the ratio 0/800 is below the threshold. -/
def edgeLowState : CtrlState :=
  { belowState 2 with refresh_init := true, lock_toggle := false }

/-- a complete pose edge: an above-threshold IMU sample, one zero EMG
sample dropping the ratio below the threshold, and a below-threshold
IMU sample that completes the edge. -/
def edgeEvents : List Ev :=
  [Ev.imu zeroQuat 4100, Ev.emg zeroVec 4101, Ev.imu zeroQuat 4102]

/-! ## Lemmas and claim theorems -/

/-! ## Characterization lemmas for the classifier stages -/

lemma one_le_index_offset_iff (c : CacheState) :
    1 ≤ index_offset c ↔ GESTURE_CIRCLE_SAMPLES ≤ num_points c := by
  unfold index_offset
  exact Nat.one_le_div_iff (by norm_num [GESTURE_CIRCLE_SAMPLES])

lemma circleStage_some_iff (c : CacheState) (g : GestureType) :
    circleStage c = some g ↔
      GESTURE_CIRCLE_SAMPLES ≤ num_points c ∧ circleConditions c ∧
        g = (if clockwise c then ARM_CIRCLE_CW else ARM_CIRCLE_CCW) := by
  unfold circleStage
  rw [← one_le_index_offset_iff]
  split_ifs with h1 h2 <;> simp_all <;> tauto

lemma circleStage_none_iff (c : CacheState) :
    circleStage c = none ↔ ¬(GESTURE_CIRCLE_SAMPLES ≤ num_points c ∧ circleConditions c) := by
  unfold circleStage
  rw [← one_le_index_offset_iff]
  split_ifs with h1 h2 <;> simp_all

lemma rotationStage_some_iff (c : CacheState) (g : GestureType) :
    rotationStage c = some g ↔
      rotationConditions c ∧
        g = (if c.gesture_roll_angle < 0 then ARM_ROTATE_CW else ARM_ROTATE_CCW) := by
  unfold rotationStage
  split_ifs with h <;> simp_all <;> tauto

lemma rotationStage_none_iff (c : CacheState) :
    rotationStage c = none ↔ ¬rotationConditions c := by
  unfold rotationStage
  split_ifs with h <;> simp_all

lemma straightStage_some_iff (c : CacheState) (g : GestureType) :
    straightStage c = some g ↔
      (horizontalConditions c ∧ g = (if x_total c > 0 then ARM_RIGHT else ARM_LEFT)) ∨
      (¬horizontalConditions c ∧ verticalConditions c ∧
        g = (if y_total c > 0 then ARM_UP else ARM_DOWN)) := by
  unfold straightStage
  split_ifs with h1 h2 <;> simp_all [eq_comm]

lemma straightStage_none_iff (c : CacheState) :
    straightStage c = none ↔ ¬horizontalConditions c ∧ ¬verticalConditions c := by
  unfold straightStage
  split_ifs with h1 h2 <;> simp_all

lemma processCacheData_circle (c : CacheState) (g : GestureType)
    (h : circleStage c = some g) : processCacheData c = g := by
  unfold processCacheData
  rw [h]

lemma processCacheData_rotation (c : CacheState) (g : GestureType)
    (h1 : circleStage c = none) (h : rotationStage c = some g) : processCacheData c = g := by
  unfold processCacheData
  rw [h1, h]

lemma processCacheData_straight (c : CacheState) (g : GestureType)
    (h1 : circleStage c = none) (h2 : rotationStage c = none)
    (h : straightStage c = some g) : processCacheData c = g := by
  unfold processCacheData
  rw [h1, h2, h]

lemma processCacheData_unknown (c : CacheState)
    (h1 : circleStage c = none) (h2 : rotationStage c = none)
    (h3 : straightStage c = none) : processCacheData c = ARM_UNKNOWN := by
  unfold processCacheData
  rw [h1, h2, h3]

lemma processCacheData_eq_iff (c : CacheState) (g : GestureType) :
    processCacheData c = g ↔
      circleStage c = some g ∨
      (circleStage c = none ∧ rotationStage c = some g) ∨
      (circleStage c = none ∧ rotationStage c = none ∧ straightStage c = some g) ∨
      (circleStage c = none ∧ rotationStage c = none ∧ straightStage c = none ∧
        g = ARM_UNKNOWN) := by
  unfold processCacheData
  rcases h1 : circleStage c with _ | g1 <;> rcases h2 : rotationStage c with _ | g2 <;>
    rcases h3 : straightStage c with _ | g3 <;> simp_all [eq_comm]

/-- rotation acceptance forces a nonzero roll angle. -/
lemma rotationConditions_roll_ne_zero (c : CacheState) (h : rotationConditions c) :
    c.gesture_roll_angle ≠ 0 := by
  intro h0
  have h4 := h.2.2.2
  rw [h0] at h4
  simp only [sqr] at h4
  nlinarith [mul_self_nonneg ROTATION_MIN_ANGLE]

/-- horizontal and vertical acceptance exclude each other. -/
lemma horizontal_vertical_exclusive (c : CacheState) (h : horizontalConditions c) :
    ¬verticalConditions c := by
  intro hv
  exact absurd h.2.1 (not_lt.mpr (le_of_lt hv.2.1))

/-! ## Claim C2: the circle stage -/

/-- C2: the circle stage runs only when the number of points reaches
GESTURE_CIRCLE_SAMPLES = 10; a circle label is produced exactly when in
addition the acceptance conditions hold (estimated diameter, deviation
of the radius, distance of the ends); the clockwise label is chosen
exactly by the cyclic order of the tracked minimum-x, maximum-y and
maximum-x indices as spelled out in the final equivalence. -/
theorem claim_C2_circle_stage : ∀ c : CacheState,
    (processCacheData c = ARM_CIRCLE_CW ↔
      GESTURE_CIRCLE_SAMPLES ≤ num_points c ∧ circleConditions c ∧ clockwise c = true) ∧
    (processCacheData c = ARM_CIRCLE_CCW ↔
      GESTURE_CIRCLE_SAMPLES ≤ num_points c ∧ circleConditions c ∧ clockwise c = false) ∧
    (clockwise c = true ↔
      ((extrema c).x_min_index < (extrema c).y_max_index ∧
        (extrema c).y_max_index < (extrema c).x_max_index) ∨
      ((extrema c).y_max_index < (extrema c).x_max_index ∧
        (extrema c).x_max_index < (extrema c).x_min_index) ∨
      ((extrema c).x_max_index < (extrema c).x_min_index ∧
        (extrema c).x_min_index < (extrema c).y_max_index)) := by
  intro c
  refine ⟨?_, ?_, ?_⟩
  · rw [processCacheData_eq_iff]
    constructor
    · rintro (h | ⟨h1, h⟩ | ⟨h1, h2, h⟩ | ⟨h1, h2, h3, h⟩)
      · rw [circleStage_some_iff] at h
        refine ⟨h.1, h.2.1, ?_⟩
        rcases hb : clockwise c with _ | _ <;> simp [hb] at h <;> simp_all
      · rw [rotationStage_some_iff] at h
        split_ifs at h with hr <;> simp_all
      · rw [straightStage_some_iff] at h
        rcases h with ⟨_, h⟩ | ⟨_, _, h⟩ <;> split_ifs at h <;> simp_all
      · simp_all
    · rintro ⟨h1, h2, h3⟩
      left
      rw [circleStage_some_iff]
      exact ⟨h1, h2, by simp [h3]⟩
  · rw [processCacheData_eq_iff]
    constructor
    · rintro (h | ⟨h1, h⟩ | ⟨h1, h2, h⟩ | ⟨h1, h2, h3, h⟩)
      · rw [circleStage_some_iff] at h
        refine ⟨h.1, h.2.1, ?_⟩
        rcases hb : clockwise c with _ | _ <;> simp [hb] at h <;> simp_all
      · rw [rotationStage_some_iff] at h
        split_ifs at h with hr <;> simp_all
      · rw [straightStage_some_iff] at h
        rcases h with ⟨_, h⟩ | ⟨_, _, h⟩ <;> split_ifs at h <;> simp_all
      · simp_all
    · rintro ⟨h1, h2, h3⟩
      left
      rw [circleStage_some_iff]
      exact ⟨h1, h2, by simp [h3]⟩
  · unfold clockwise
    simp only [Bool.or_eq_true, Bool.and_eq_true, decide_eq_true_eq]
    tauto

/-! ## Claim C3: the rotation stage -/

/-- C3: when the circle stage neither accepts nor runs, a rotation label
is produced exactly when the acceptance condition of line 244 holds
(x deviation and corrected y deviation at most ROTATION_MAX_VARIANCE and
squared roll angle above the squared minimum angle pi/6); the sign of
the roll angle picks ARM_ROTATE_CW (negative) or ARM_ROTATE_CCW
(positive).  rotationConditions carries the conjunct 0 < num_points,
which encodes that at num_points = 0 the C deviations are NaN and the
comparisons of line 244 are false. -/
theorem claim_C3_rotation_stage : ∀ c : CacheState,
    (processCacheData c = ARM_ROTATE_CW ↔
      circleStage c = none ∧ rotationConditions c ∧ c.gesture_roll_angle < 0) ∧
    (processCacheData c = ARM_ROTATE_CCW ↔
      circleStage c = none ∧ rotationConditions c ∧ 0 < c.gesture_roll_angle) := by
  intro c
  constructor
  · rw [processCacheData_eq_iff]
    constructor
    · rintro (h | ⟨h1, h⟩ | ⟨h1, h2, h⟩ | ⟨h1, h2, h3, h⟩)
      · rw [circleStage_some_iff] at h
        rcases h with ⟨_, _, h⟩
        split_ifs at h <;> simp_all
      · rw [rotationStage_some_iff] at h
        refine ⟨h1, h.1, ?_⟩
        by_contra hneg
        rw [if_neg hneg] at h
        exact absurd h.2 (by simp)
      · rw [straightStage_some_iff] at h
        rcases h with ⟨_, h⟩ | ⟨_, _, h⟩ <;> split_ifs at h <;> simp_all
      · simp_all
    · rintro ⟨h1, h2, h3⟩
      right; left
      exact ⟨h1, by rw [rotationStage_some_iff]; exact ⟨h2, by rw [if_pos h3]⟩⟩
  · rw [processCacheData_eq_iff]
    constructor
    · rintro (h | ⟨h1, h⟩ | ⟨h1, h2, h⟩ | ⟨h1, h2, h3, h⟩)
      · rw [circleStage_some_iff] at h
        rcases h with ⟨_, _, h⟩
        split_ifs at h <;> simp_all
      · rw [rotationStage_some_iff] at h
        refine ⟨h1, h.1, ?_⟩
        have hne := rotationConditions_roll_ne_zero c h.1
        rcases lt_trichotomy c.gesture_roll_angle 0 with hlt | heq | hgt
        · rw [if_pos hlt] at h
          exact absurd h.2 (by simp)
        · exact absurd heq hne
        · exact hgt
      · rw [straightStage_some_iff] at h
        rcases h with ⟨_, h⟩ | ⟨_, _, h⟩ <;> split_ifs at h <;> simp_all
      · simp_all
    · rintro ⟨h1, h2, h3⟩
      right; left
      refine ⟨h1, ?_⟩
      rw [rotationStage_some_iff]
      exact ⟨h2, by rw [if_neg (not_lt.mpr (le_of_lt h3))]⟩

/-! ## Claim C4: the straight-movement stage -/

/-- C4: when neither the circle stage nor the rotation stage returns, a
horizontal label is produced exactly under horizontalConditions (with
the sign of the summed x displacement picking right or left), a vertical
label exactly under verticalConditions (sign of the summed y
displacement picking up or down), and ARM_UNKNOWN is produced exactly
when the straight stage rejects as well.  horizontalConditions and
verticalConditions are the line 260 and line 269 conditions on the
deviation relation and the distance of the last point from the origin;
see their doc comments for the encoded IEEE corner cases. -/
theorem claim_C4_straight_stage : ∀ c : CacheState,
    (processCacheData c = ARM_RIGHT ↔
      circleStage c = none ∧ rotationStage c = none ∧
        horizontalConditions c ∧ 0 < x_total c) ∧
    (processCacheData c = ARM_LEFT ↔
      circleStage c = none ∧ rotationStage c = none ∧
        horizontalConditions c ∧ x_total c ≤ 0) ∧
    (processCacheData c = ARM_UP ↔
      circleStage c = none ∧ rotationStage c = none ∧
        verticalConditions c ∧ 0 < y_total c) ∧
    (processCacheData c = ARM_DOWN ↔
      circleStage c = none ∧ rotationStage c = none ∧
        verticalConditions c ∧ y_total c ≤ 0) ∧
    (processCacheData c = ARM_UNKNOWN ↔
      circleStage c = none ∧ rotationStage c = none ∧ straightStage c = none) := by
  intro c
  refine ⟨?_, ?_, ?_, ?_, ?_⟩
  · rw [processCacheData_eq_iff]
    constructor
    · rintro (h | ⟨h1, h⟩ | ⟨h1, h2, h⟩ | ⟨h1, h2, h3, h⟩)
      · rw [circleStage_some_iff] at h
        rcases h with ⟨_, _, h⟩
        split_ifs at h <;> simp_all
      · rw [rotationStage_some_iff] at h
        rcases h with ⟨_, h⟩
        split_ifs at h <;> simp_all
      · rw [straightStage_some_iff] at h
        rcases h with ⟨hh, h⟩ | ⟨_, _, h⟩
        · refine ⟨h1, h2, hh, ?_⟩
          by_contra hneg
          rw [if_neg hneg] at h
          exact absurd h (by simp)
        · split_ifs at h <;> simp_all
      · simp_all
    · rintro ⟨h1, h2, h3, h4⟩
      right; right; left
      refine ⟨h1, h2, ?_⟩
      rw [straightStage_some_iff]
      exact Or.inl ⟨h3, by rw [if_pos h4]⟩
  · rw [processCacheData_eq_iff]
    constructor
    · rintro (h | ⟨h1, h⟩ | ⟨h1, h2, h⟩ | ⟨h1, h2, h3, h⟩)
      · rw [circleStage_some_iff] at h
        rcases h with ⟨_, _, h⟩
        split_ifs at h <;> simp_all
      · rw [rotationStage_some_iff] at h
        rcases h with ⟨_, h⟩
        split_ifs at h <;> simp_all
      · rw [straightStage_some_iff] at h
        rcases h with ⟨hh, h⟩ | ⟨_, _, h⟩
        · refine ⟨h1, h2, hh, ?_⟩
          by_contra hneg
          rw [if_pos (lt_of_not_le hneg)] at h
          exact absurd h (by simp)
        · split_ifs at h <;> simp_all
      · simp_all
    · rintro ⟨h1, h2, h3, h4⟩
      right; right; left
      refine ⟨h1, h2, ?_⟩
      rw [straightStage_some_iff]
      exact Or.inl ⟨h3, by rw [if_neg (not_lt.mpr h4)]⟩
  · rw [processCacheData_eq_iff]
    constructor
    · rintro (h | ⟨h1, h⟩ | ⟨h1, h2, h⟩ | ⟨h1, h2, h3, h⟩)
      · rw [circleStage_some_iff] at h
        rcases h with ⟨_, _, h⟩
        split_ifs at h <;> simp_all
      · rw [rotationStage_some_iff] at h
        rcases h with ⟨_, h⟩
        split_ifs at h <;> simp_all
      · rw [straightStage_some_iff] at h
        rcases h with ⟨_, h⟩ | ⟨_, hv, h⟩
        · split_ifs at h <;> simp_all
        · refine ⟨h1, h2, hv, ?_⟩
          by_contra hneg
          rw [if_neg hneg] at h
          exact absurd h (by simp)
      · simp_all
    · rintro ⟨h1, h2, h3, h4⟩
      right; right; left
      refine ⟨h1, h2, ?_⟩
      rw [straightStage_some_iff]
      refine Or.inr ⟨?_, h3, by rw [if_pos h4]⟩
      intro hh
      exact horizontal_vertical_exclusive c hh h3
  · rw [processCacheData_eq_iff]
    constructor
    · rintro (h | ⟨h1, h⟩ | ⟨h1, h2, h⟩ | ⟨h1, h2, h3, h⟩)
      · rw [circleStage_some_iff] at h
        rcases h with ⟨_, _, h⟩
        split_ifs at h <;> simp_all
      · rw [rotationStage_some_iff] at h
        rcases h with ⟨_, h⟩
        split_ifs at h <;> simp_all
      · rw [straightStage_some_iff] at h
        rcases h with ⟨_, h⟩ | ⟨_, hv, h⟩
        · split_ifs at h <;> simp_all
        · refine ⟨h1, h2, hv, ?_⟩
          by_contra hneg
          rw [if_pos (lt_of_not_le hneg)] at h
          exact absurd h (by simp)
      · simp_all
    · rintro ⟨h1, h2, h3, h4⟩
      right; right; left
      refine ⟨h1, h2, ?_⟩
      rw [straightStage_some_iff]
      refine Or.inr ⟨?_, h3, by rw [if_neg (not_lt.mpr h4)]⟩
      intro hh
      exact horizontal_vertical_exclusive c hh h3
  · rw [processCacheData_eq_iff]
    constructor
    · rintro (h | ⟨h1, h⟩ | ⟨h1, h2, h⟩ | ⟨h1, h2, h3, h⟩)
      · rw [circleStage_some_iff] at h
        rcases h with ⟨_, _, h⟩
        split_ifs at h <;> simp_all
      · rw [rotationStage_some_iff] at h
        rcases h with ⟨_, h⟩
        split_ifs at h <;> simp_all
      · rw [straightStage_some_iff] at h
        rcases h with ⟨_, h⟩ | ⟨_, _, h⟩ <;> split_ifs at h <;> simp_all
      · exact ⟨h1, h2, h3⟩
    · rintro ⟨h1, h2, h3⟩
      right; right; right
      exact ⟨h1, h2, h3, rfl⟩

lemma circleStage_c1ex : circleStage c1ex = none := by
  rw [circleStage_none_iff]
  rintro ⟨h, -⟩
  norm_num [num_points, c1ex, GESTURE_CIRCLE_SAMPLES] at h

lemma x_deviation_c1ex : x_deviation c1ex = 0 := by
  show (∑ i ∈ Finset.range (num_points c1ex), sqr (point c1ex i).1) / (num_points c1ex : ℝ) = 0
  norm_num [num_points, c1ex, Finset.sum_range_one, point, sqr]

lemma y_deviation_c1ex : y_deviation c1ex = 0 := by
  show (∑ i ∈ Finset.range (num_points c1ex), sqr (point c1ex i).2) / (num_points c1ex : ℝ) *
      Y_DEVIATION_CORRECTION = 0
  norm_num [num_points, c1ex, Finset.sum_range_one, point, sqr]

lemma rotationConditions_c1ex : rotationConditions c1ex := by
  refine ⟨by norm_num [num_points, c1ex], ?_, ?_, ?_⟩
  · rw [x_deviation_c1ex]; norm_num [ROTATION_MAX_VARIANCE]
  · rw [y_deviation_c1ex]; norm_num [ROTATION_MAX_VARIANCE]
  · show sqr c1ex.gesture_roll_angle > sqr ROTATION_MIN_ANGLE
    have hpi : Real.pi < 3.15 := Real.pi_lt_315
    have hpi0 : 0 < Real.pi := Real.pi_pos
    simp only [sqr, ROTATION_MIN_ANGLE, c1ex]
    nlinarith

lemma processCacheData_c1ex_eval : processCacheData c1ex = ARM_ROTATE_CCW := by
  refine processCacheData_rotation c1ex _ circleStage_c1ex ?_
  rw [rotationStage_some_iff]
  refine ⟨rotationConditions_c1ex, ?_⟩
  rw [if_neg]
  show ¬(c1ex.gesture_roll_angle < 0)
  norm_num [c1ex]

lemma zeroDivisorHit_c1ex : zeroDivisorHit c1ex :=
  ⟨circleStage_c1ex, Or.inr y_deviation_c1ex⟩

lemma processCacheData_zero_points (f : ℕ → ℝ) (roll : ℝ) :
    processCacheData ⟨f, 0, roll⟩ = ARM_UNKNOWN ∧ zeroDivisorHit ⟨f, 0, roll⟩ := by
  have hP : num_points ⟨f, 0, roll⟩ = 0 := by simp [num_points]
  have hc : circleStage ⟨f, 0, roll⟩ = none := by
    rw [circleStage_none_iff]
    rintro ⟨h, -⟩
    rw [hP] at h
    norm_num [GESTURE_CIRCLE_SAMPLES] at h
  have hr : rotationStage ⟨f, 0, roll⟩ = none := by
    rw [rotationStage_none_iff]
    rintro ⟨h, -⟩
    rw [hP] at h
    exact absurd h (by norm_num)
  have hs : straightStage ⟨f, 0, roll⟩ = none := by
    rw [straightStage_none_iff]
    constructor
    · rintro ⟨h, -⟩
      rw [hP] at h
      exact absurd h (by norm_num)
    · rintro ⟨h, -⟩
      rw [hP] at h
      exact absurd h (by norm_num)
  exact ⟨processCacheData_unknown _ hc hr hs, hc, Or.inl hP⟩

/-- C1 counterexample: with exactly one stored point (P = 1), here the
point (0, 0) with roll angle 1, the classifier returns ARM_ROTATE_CCW
rather than ARM_UNKNOWN (the rotation test accepts).  Moreover the
division computing the deviation relation has the zero divisor
y_deviation, witnessed by zeroDivisorHit. -/
theorem claim_C1_counterexample :
    num_points c1ex = 1 ∧ processCacheData c1ex = ARM_ROTATE_CCW ∧ zeroDivisorHit c1ex :=
  ⟨rfl, processCacheData_c1ex_eval, zeroDivisorHit_c1ex⟩

/-- C1 amended: on an empty cache (P = 0) the classifier returns
ARM_UNKNOWN, but the mean computations do divide by the point count 0
(in C the result is NaN and all later comparisons are false); with P = 1
a division by zero can also occur (zero corrected y deviation) and the
result can differ from ARM_UNKNOWN, as the single point (0, 0) with roll
angle 1 shows. -/
theorem claim_C1_empty_cache_amended :
    (∀ (f : ℕ → ℝ) (roll : ℝ),
      processCacheData ⟨f, 0, roll⟩ = ARM_UNKNOWN ∧ zeroDivisorHit ⟨f, 0, roll⟩) ∧
    processCacheData c1ex = ARM_ROTATE_CCW ∧ zeroDivisorHit c1ex :=
  ⟨processCacheData_zero_points, processCacheData_c1ex_eval, zeroDivisorHit_c1ex⟩

lemma updateGestureCache_offset (s : CacheState) (x y r : ℝ) :
    (updateGestureCache s x y r).gesture_cache_offset =
      if s.gesture_cache_offset < GESTURE_CACHE_SIZE then s.gesture_cache_offset + 2
      else s.gesture_cache_offset := by
  unfold updateGestureCache
  split_ifs <;> rfl

lemma updateGestureCache_full (s : CacheState) (x y r : ℝ)
    (h : ¬s.gesture_cache_offset < GESTURE_CACHE_SIZE) :
    updateGestureCache s x y r = { s with gesture_roll_angle := r } := by
  unfold updateGestureCache
  rw [if_neg h]

lemma pushList_offset : ∀ (l : List (ℝ × ℝ × ℝ)) (s : CacheState),
    s.gesture_cache_offset % 2 = 0 → s.gesture_cache_offset ≤ GESTURE_CACHE_SIZE →
    (pushList s l).gesture_cache_offset =
      min GESTURE_CACHE_SIZE (s.gesture_cache_offset + 2 * l.length) := by
  intro l
  induction l with
  | nil =>
    intro s _ h2
    simp only [pushList, List.foldl_nil, List.length_nil]
    omega
  | cons hd tl ih =>
    intro s h1 h2
    have hstep : pushList s (hd :: tl) = pushList (updateGestureCache s hd.1 hd.2.1 hd.2.2) tl :=
      rfl
    rw [hstep]
    by_cases hlt : s.gesture_cache_offset < GESTURE_CACHE_SIZE
    · have hoff := updateGestureCache_offset s hd.1 hd.2.1 hd.2.2
      rw [if_pos hlt] at hoff
      rw [ih _ (by omega) (by unfold GESTURE_CACHE_SIZE at *; omega)]
      rw [hoff]
      simp only [List.length_cons]
      unfold GESTURE_CACHE_SIZE at *
      omega
    · have hoff := updateGestureCache_offset s hd.1 hd.2.1 hd.2.2
      rw [if_neg hlt] at hoff
      rw [ih _ (by omega) (by omega)]
      rw [hoff]
      simp only [List.length_cons]
      unfold GESTURE_CACHE_SIZE at *
      omega

/-- C5: behaviour of the cache operations.  A push on a non-full cache
stores asin(clip(x)) and asin(clip(y)) at the current offset, leaves all
other cells alone, advances the offset by 2 and overwrites the roll; any
GESTURE_CACHE_SIZE/2 pushes starting from the startup cache make
gestureBufferFull true; a push on a full cache changes nothing except
the roll angle, which is overwritten unconditionally; resetGestureCache
zeroes offset and roll from any state. -/
theorem claim_C5_cache_ops :
    (∀ (s : CacheState) (x y r : ℝ), s.gesture_cache_offset < GESTURE_CACHE_SIZE →
      (updateGestureCache s x y r).gesture_cache s.gesture_cache_offset =
          Real.arcsin (clip x (-0.99999) 0.99999) ∧
        (updateGestureCache s x y r).gesture_cache (s.gesture_cache_offset + 1) =
          Real.arcsin (clip y (-0.99999) 0.99999) ∧
        (updateGestureCache s x y r).gesture_cache_offset = s.gesture_cache_offset + 2 ∧
        (updateGestureCache s x y r).gesture_roll_angle = r ∧
        ∀ k : ℕ, k ≠ s.gesture_cache_offset → k ≠ s.gesture_cache_offset + 1 →
          (updateGestureCache s x y r).gesture_cache k = s.gesture_cache k) ∧
    (∀ l : List (ℝ × ℝ × ℝ), l.length = GESTURE_CACHE_SIZE / 2 →
      gestureBufferFull (pushList initCacheState l)) ∧
    (∀ (s : CacheState) (x y r : ℝ), gestureBufferFull s →
      updateGestureCache s x y r = { s with gesture_roll_angle := r } ∧
        (gestureBufferFull (updateGestureCache s x y r) ↔ gestureBufferFull s)) ∧
    (∀ s : CacheState,
      (resetGestureCache s).gesture_cache_offset = 0 ∧
        (resetGestureCache s).gesture_roll_angle = 0 ∧
        ∀ k : ℕ, (resetGestureCache s).gesture_cache k = s.gesture_cache k) := by
  refine ⟨?_, ?_, ?_, ?_⟩
  · intro s x y r h
    unfold updateGestureCache
    rw [if_pos h]
    refine ⟨by simp, ?_, rfl, rfl, ?_⟩
    · simp only []
      rw [if_neg (by omega)]
      simp
    · intro k hk1 hk2
      simp only []
      rw [if_neg hk1, if_neg hk2]
  · intro l hl
    show (pushList initCacheState l).gesture_cache_offset = GESTURE_CACHE_SIZE
    rw [pushList_offset l initCacheState (by simp [initCacheState]) (by simp [initCacheState])]
    rw [hl]
    simp [initCacheState, GESTURE_CACHE_SIZE]
  · intro s x y r h
    have hfull : ¬s.gesture_cache_offset < GESTURE_CACHE_SIZE := by
      rw [gestureBufferFull] at h
      omega
    constructor
    · exact updateGestureCache_full s x y r hfull
    · rw [updateGestureCache_full s x y r hfull]
      exact Iff.rfl
  · intro s
    exact ⟨rfl, rfl, fun k => rfl⟩

lemma gestureBufferFull_fullCacheEx : gestureBufferFull fullCacheEx := rfl

/-- C5 witness: the conjuncts of claim_C5_cache_ops instantiated at the
startup cache, at GESTURE_CACHE_SIZE/2 concrete pushes, and at a
concrete full cache, with every hypothesis discharged. -/
theorem claim_C5_witness :
    ((updateGestureCache initCacheState 0 0 0).gesture_cache_offset = 0 + 2 ∧
      gestureBufferFull (pushList initCacheState (List.replicate 64 (0, 0, 0))) ∧
      updateGestureCache fullCacheEx 0 0 0 = { fullCacheEx with gesture_roll_angle := 0 } ∧
      (resetGestureCache fullCacheEx).gesture_cache_offset = 0) := by
  refine ⟨?_, ?_, ?_, ?_⟩
  · exact (claim_C5_cache_ops.1 initCacheState 0 0 0
      (by norm_num [initCacheState, GESTURE_CACHE_SIZE])).2.2.1
  · exact claim_C5_cache_ops.2.1 (List.replicate 64 (0, 0, 0))
      (by simp [GESTURE_CACHE_SIZE])
  · exact (claim_C5_cache_ops.2.2.1 fullCacheEx 0 0 0 gestureBufferFull_fullCacheEx).1
  · exact (claim_C5_cache_ops.2.2.2 fullCacheEx).1

/-- C6: the offset is even and at most GESTURE_CACHE_SIZE initially and
after every cache operation (updateGestureCache, resetGestureCache, the
offset-clearing effect of processCacheData; gestureBufferFull reads the
state without changing it), and a push on a full cache leaves the
offset unchanged. -/
theorem claim_C6_offset_invariant :
    cacheInv initCacheState ∧
    (∀ (s : CacheState) (x y r : ℝ), cacheInv s → cacheInv (updateGestureCache s x y r)) ∧
    (∀ (s : CacheState) (x y r : ℝ), gestureBufferFull s →
      (updateGestureCache s x y r).gesture_cache_offset = s.gesture_cache_offset) ∧
    (∀ s : CacheState, cacheInv (resetGestureCache s)) ∧
    (∀ s : CacheState, cacheInv (processCacheDataOp s).2) := by
  refine ⟨?_, ?_, ?_, ?_, ?_⟩
  · exact ⟨rfl, by norm_num [initCacheState, GESTURE_CACHE_SIZE]⟩
  · intro s x y r h
    rcases h with ⟨h1, h2⟩
    constructor
    · rw [updateGestureCache_offset]
      split_ifs <;> omega
    · rw [updateGestureCache_offset]
      split_ifs <;> unfold GESTURE_CACHE_SIZE at * <;> omega
  · intro s x y r h
    rw [updateGestureCache_offset, if_neg]
    rw [gestureBufferFull] at h
    omega
  · intro s
    exact ⟨rfl, by norm_num [resetGestureCache, GESTURE_CACHE_SIZE]⟩
  · intro s
    exact ⟨rfl, by norm_num [processCacheDataOp, GESTURE_CACHE_SIZE]⟩

/-- C6 witness: the invariant holds at the startup cache and is carried
through a concrete push, and a push on a concrete full cache keeps the
offset, all by instantiating claim_C6_offset_invariant. -/
theorem claim_C6_witness :
    cacheInv (updateGestureCache initCacheState 0 0 0) ∧
    (updateGestureCache fullCacheEx 0 0 0).gesture_cache_offset =
      fullCacheEx.gesture_cache_offset :=
  ⟨claim_C6_offset_invariant.2.1 initCacheState 0 0 0 claim_C6_offset_invariant.1,
    claim_C6_offset_invariant.2.2.1 fullCacheEx 0 0 0 gestureBufferFull_fullCacheEx⟩

/-! ## Run lemmas -/

lemma runFrom_nil (s : CtrlState) : runFrom s [] = (s, []) := rfl

lemma runFrom_acc : ∀ (l : List Ev) (s : CtrlState) (out : List Output),
    l.foldl (fun p e => ((step p.1 e).1, p.2 ++ (step p.1 e).2)) (s, out) =
      ((runFrom s l).1, out ++ (runFrom s l).2) := by
  intro l
  induction l with
  | nil => intro s out; simp [runFrom]
  | cons e tl ih =>
    intro s out
    show List.foldl _ ((step s e).1, out ++ (step s e).2) tl = _
    rw [ih]
    have h2 : runFrom s (e :: tl) =
        ((runFrom (step s e).1 tl).1, (step s e).2 ++ (runFrom (step s e).1 tl).2) := by
      show List.foldl _ ((step s e).1, [] ++ (step s e).2) tl = _
      rw [ih]
      simp
    rw [h2]
    simp

lemma runFrom_cons (s : CtrlState) (e : Ev) (l : List Ev) :
    runFrom s (e :: l) =
      ((runFrom (step s e).1 l).1, (step s e).2 ++ (runFrom (step s e).1 l).2) := by
  show List.foldl _ ((step s e).1, [] ++ (step s e).2) l = _
  rw [runFrom_acc]
  simp

lemma runFrom_append (s : CtrlState) (l1 l2 : List Ev) :
    runFrom s (l1 ++ l2) =
      ((runFrom (runFrom s l1).1 l2).1, (runFrom s l1).2 ++ (runFrom (runFrom s l1).1 l2).2) := by
  induction l1 generalizing s with
  | nil => simp [runFrom_nil]
  | cons e tl ih =>
    rw [List.cons_append, runFrom_cons, runFrom_cons, ih]
    simp

lemma absSum_zeroVec : absSum zeroVec = 0 := by
  simp [absSum, zeroVec]

lemma absSum_vec100 : absSum vec100 = 800 := by
  simp [absSum, vec100]

lemma clip_zero : clip 0 (-0.99999) 0.99999 = 0 := by
  unfold clip
  rw [min_eq_left (by norm_num), max_eq_right (by norm_num)]

lemma clip_zero6 : clip 0 (-0.999999) 0.999999 = 0 := by
  unfold clip
  rw [min_eq_left (by norm_num), max_eq_right (by norm_num)]

lemma uq2m_zeroQuat : unit_quaternion_to_matrix zeroQuat = idMatrix := by
  unfold unit_quaternion_to_matrix
  simp only [zeroQuat, Int.cast_zero, zero_div, clip_zero6]
  unfold idMatrix
  norm_num

lemma inverse_idMatrix : inverse_matrix idMatrix = idMatrix := by
  unfold inverse_matrix matrix_determinant idMatrix
  norm_num

lemma mul_id_id : multiply_matrix idMatrix idMatrix = idMatrix := by
  unfold multiply_matrix idMatrix
  norm_num

lemma updateGestureCache_zeroState (o : ℕ) (ho : o < GESTURE_CACHE_SIZE) (r : ℝ) :
    updateGestureCache ⟨fun _ => 0, o, r⟩ 0 0 0 = ⟨fun _ => 0, o + 2, 0⟩ := by
  unfold updateGestureCache
  rw [if_pos ho]
  congr 1
  funext k
  split_ifs <;> simp [clip_zero]

lemma hIMU_preSync (s : CtrlState) (q : Fin 4 → ℤ) (t : ℕ) (h : ¬pastSyncWindow s t) :
    handleIMUData s q t = ({ s with inverseInitMatrix := imuInv s q, refresh_init := false }, []) := by
  simp only [handleIMUData, imuInv]
  rw [if_neg h]

lemma hIMU_below_discard (s : CtrlState) (q : Fin 4 → ℤ) (t : ℕ)
    (h1 : pastSyncWindow s t) (h2 : ratioBelow s)
    (h3 : s.locked = false) (h4 : gestureBufferFull s.cache) :
    handleIMUData s q t =
      ({ s with
          inverseInitMatrix := imuInv s q, refresh_init := false,
          lock_toggle := true, locked := true, cache := resetGestureCache s.cache },
        [Output.lockChange true]) := by
  have hd : s.locked = false ∧ gestureBufferFull s.cache := ⟨h3, h4⟩
  simp only [handleIMUData, imuInv]
  simp [h1, h2, hd, h3, h4]

lemma hIMU_below_toggle (s : CtrlState) (q : Fin 4 → ℤ) (t : ℕ)
    (h1 : pastSyncWindow s t) (h2 : ratioBelow s)
    (hd : ¬(s.locked = false ∧ gestureBufferFull s.cache)) (hlt : s.lock_toggle = false) :
    handleIMUData s q t =
      ({ s with
          inverseInitMatrix := imuInv s q, refresh_init := false,
          lock_toggle := true, locked := !s.locked,
          cache := if (!s.locked) = false then
              updateGestureCache (resetGestureCache s.cache)
                (imuLocal s q).m21 (imuLocal s q).m20 (imuRoll s q)
            else s.cache },
        [Output.lockChange (!s.locked)]) := by
  simp only [handleIMUData, imuInv, imuLocal, imuRoll]
  simp [h1, h2, hd, hlt]
  split_ifs with h <;> simp [h]

lemma hIMU_below_noop (s : CtrlState) (q : Fin 4 → ℤ) (t : ℕ)
    (h1 : pastSyncWindow s t) (h2 : ratioBelow s)
    (hd : ¬(s.locked = false ∧ gestureBufferFull s.cache)) (hlt : s.lock_toggle = true) :
    handleIMUData s q t =
      ({ s with
          inverseInitMatrix := imuInv s q, refresh_init := false,
          cache := if s.locked = false then
              updateGestureCache s.cache
                (imuLocal s q).m21 (imuLocal s q).m20 (imuRoll s q)
            else s.cache }, []) := by
  simp only [handleIMUData, imuInv, imuLocal, imuRoll]
  simp [h1, h2, hd, hlt]

lemma hIMU_held_arm_unlocked (s : CtrlState) (q : Fin 4 → ℤ) (t : ℕ)
    (h1 : pastSyncWindow s t) (h2 : ¬ratioBelow s)
    (h3 : s.lock_toggle = true) (h4 : s.locked = false) :
    handleIMUData s q t =
      ({ s with
          inverseInitMatrix := imuInv s q, refresh_init := true, lock_toggle := false,
          cache := updateGestureCache { s.cache with gesture_cache_offset := 0 }
            (imuLocal s q).m21 (imuLocal s q).m20 (imuRoll s q) },
        if processCacheData s.cache = ARM_UNKNOWN then []
        else [Output.gestureEvt (processCacheData s.cache)]) := by
  simp only [handleIMUData, imuInv, imuLocal, imuRoll]
  rw [if_pos h1, if_neg h2, if_pos h3, if_pos h4]

lemma hIMU_held_arm_locked (s : CtrlState) (q : Fin 4 → ℤ) (t : ℕ)
    (h1 : pastSyncWindow s t) (h2 : ¬ratioBelow s)
    (h3 : s.lock_toggle = true) (h4 : ¬(s.locked = false)) :
    handleIMUData s q t =
      ({ s with
          inverseInitMatrix := imuInv s q, refresh_init := true, lock_toggle := false },
        []) := by
  simp only [handleIMUData, imuInv]
  rw [if_pos h1, if_neg h2, if_pos h3, if_neg h4]

lemma hIMU_held_noop (s : CtrlState) (q : Fin 4 → ℤ) (t : ℕ)
    (h1 : pastSyncWindow s t) (h2 : ¬ratioBelow s) (h3 : ¬(s.lock_toggle = true)) :
    handleIMUData s q t =
      ({ s with
          inverseInitMatrix := imuInv s q, refresh_init := false,
          cache := if s.locked = false then
              updateGestureCache s.cache
                (imuLocal s q).m21 (imuLocal s q).m20 (imuRoll s q)
            else s.cache }, []) := by
  simp only [handleIMUData, imuInv, imuLocal, imuRoll]
  rw [if_pos h1, if_neg h2, if_neg h3]

/-! ## Projection lemmas for handleEMGData -/

lemma emgSyncPhase_outputs (s : CtrlState) (t : ℕ) :
    (emgSyncPhase s t).2 = [] ∨ (emgSyncPhase s t).2 = [Output.vibrate 1] := by
  unfold emgSyncPhase
  split_ifs <;> simp

lemma emgSyncPhase_locked (s : CtrlState) (t : ℕ) :
    (emgSyncPhase s t).1.locked = s.locked := by
  unfold emgSyncPhase
  split_ifs <;> rfl

lemma emgSyncPhase_cache (s : CtrlState) (t : ℕ) :
    (emgSyncPhase s t).1.cache = s.cache := by
  unfold emgSyncPhase
  split_ifs <;> rfl

lemma emgSyncPhase_lock_toggle (s : CtrlState) (t : ℕ) :
    (emgSyncPhase s t).1.lock_toggle = s.lock_toggle := by
  unfold emgSyncPhase
  split_ifs <;> rfl

lemma emgTimerStart_fields (s : CtrlState) (t : ℕ) :
    (emgTimerStart s t).locked = s.locked ∧ (emgTimerStart s t).cache = s.cache ∧
      (emgTimerStart s t).lock_toggle = s.lock_toggle := by
  unfold emgTimerStart
  split_ifs <;> exact ⟨rfl, rfl, rfl⟩

lemma handleEMGData_outputs (s : CtrlState) (d : Fin 8 → ℤ) (t : ℕ) :
    (handleEMGData s d t).2 = [] ∨ (handleEMGData s d t).2 = [Output.vibrate 1] :=
  emgSyncPhase_outputs _ t

lemma handleEMGData_locked (s : CtrlState) (d : Fin 8 → ℤ) (t : ℕ) :
    (handleEMGData s d t).1.locked = s.locked := by
  unfold handleEMGData
  rw [emgSyncPhase_locked, (emgTimerStart_fields _ t).1]
  rfl

lemma handleEMGData_cache (s : CtrlState) (d : Fin 8 → ℤ) (t : ℕ) :
    (handleEMGData s d t).1.cache = s.cache := by
  unfold handleEMGData
  rw [emgSyncPhase_cache, (emgTimerStart_fields _ t).2.1]
  rfl

lemma handleEMGData_lock_toggle (s : CtrlState) (d : Fin 8 → ℤ) (t : ℕ) :
    (handleEMGData s d t).1.lock_toggle = s.lock_toggle := by
  unfold handleEMGData
  rw [emgSyncPhase_lock_toggle, (emgTimerStart_fields _ t).2.2]
  rfl

lemma pastSync_below (o : ℕ) : pastSyncWindow (belowState o) 4100 :=
  ⟨rfl, by norm_num [belowState, EMG_SYNC_TIME, AFTER_SYNC_WAIT]⟩

lemma ratioBelow_below (o : ℕ) : ratioBelow (belowState o) := by
  refine ⟨by norm_num [belowState], ?_⟩
  show ((belowState o).emgSum : ℝ) / ((belowState o).emgSync : ℝ) < LOCK_TOGGLE_THRESHOLD
  norm_num [belowState, LOCK_TOGGLE_THRESHOLD]

lemma pastSync_preImu : pastSyncWindow preImuState 4100 :=
  ⟨rfl, by norm_num [preImuState, belowState, EMG_SYNC_TIME, AFTER_SYNC_WAIT]⟩

lemma ratioBelow_preImu : ratioBelow preImuState := by
  refine ⟨by norm_num [preImuState, belowState], ?_⟩
  show (preImuState.emgSum : ℝ) / (preImuState.emgSync : ℝ) < LOCK_TOGGLE_THRESHOLD
  norm_num [preImuState, belowState, LOCK_TOGGLE_THRESHOLD]

lemma imuInv_below (o : ℕ) : imuInv (belowState o) zeroQuat = idMatrix := by
  simp [imuInv, belowState]

lemma imuLocal_below (o : ℕ) : imuLocal (belowState o) zeroQuat = idMatrix := by
  rw [imuLocal, imuInv_below, uq2m_zeroQuat, mul_id_id]

lemma imuRoll_below (o : ℕ) : imuRoll (belowState o) zeroQuat = 0 := by
  rw [imuRoll, imuLocal_below]
  show Real.arcsin 0 = 0
  exact Real.arcsin_zero

lemma imuInv_preImu : imuInv preImuState zeroQuat = idMatrix := by
  show (if preImuState.refresh_init = true then
      inverse_matrix (unit_quaternion_to_matrix zeroQuat) else preImuState.inverseInitMatrix) =
    idMatrix
  rw [if_pos (show preImuState.refresh_init = true from rfl), uq2m_zeroQuat, inverse_idMatrix]

lemma imuLocal_preImu : imuLocal preImuState zeroQuat = idMatrix := by
  rw [imuLocal, imuInv_preImu, uq2m_zeroQuat, mul_id_id]

lemma imuRoll_preImu : imuRoll preImuState zeroQuat = 0 := by
  rw [imuRoll, imuLocal_preImu]
  show Real.arcsin 0 = 0
  exact Real.arcsin_zero

lemma step_below (o : ℕ) (ho : o < GESTURE_CACHE_SIZE) :
    step (belowState o) (Ev.imu zeroQuat 4100) = (belowState (o + 2), []) := by
  have hd : ¬((belowState o).locked = false ∧ gestureBufferFull (belowState o).cache) := by
    rintro ⟨-, hf⟩
    have h : o = GESTURE_CACHE_SIZE := hf
    omega
  have h := hIMU_below_noop (belowState o) zeroQuat 4100 (pastSync_below o)
    (ratioBelow_below o) hd rfl
  show handleIMUData (belowState o) zeroQuat 4100 = _
  rw [h, imuLocal_below, imuRoll_below, imuInv_below]
  have hcache : (if (belowState o).locked = false then
      updateGestureCache (belowState o).cache idMatrix.m21 idMatrix.m20 0
      else (belowState o).cache) = (⟨fun _ => 0, o + 2, 0⟩ : CacheState) := by
    rw [if_pos (show (belowState o).locked = false from rfl)]
    show updateGestureCache ⟨fun _ => 0, o, 0⟩ idMatrix.m21 idMatrix.m20 0 = _
    rw [show idMatrix.m21 = (0 : ℝ) from rfl, show idMatrix.m20 = (0 : ℝ) from rfl]
    exact updateGestureCache_zeroState o ho 0
  rw [hcache]
  rfl

lemma step_below_full :
    step (belowState GESTURE_CACHE_SIZE) (Ev.imu zeroQuat 4100) =
      (relockedState, [Output.lockChange true]) := by
  have h := hIMU_below_discard (belowState GESTURE_CACHE_SIZE) zeroQuat 4100
    (pastSync_below _) (ratioBelow_below _) rfl rfl
  show handleIMUData (belowState GESTURE_CACHE_SIZE) zeroQuat 4100 = _
  rw [h, imuInv_below]
  rfl

lemma step_preImu : step preImuState (Ev.imu zeroQuat 4100) = (belowState 2, []) := by
  have hd : ¬(preImuState.locked = false ∧ gestureBufferFull preImuState.cache) := by
    rintro ⟨-, hf⟩
    have h : (0 : ℕ) = GESTURE_CACHE_SIZE := hf
    norm_num [GESTURE_CACHE_SIZE] at h
  have h := hIMU_below_noop preImuState zeroQuat 4100 pastSync_preImu ratioBelow_preImu hd rfl
  show handleIMUData preImuState zeroQuat 4100 = _
  rw [h, imuLocal_preImu, imuRoll_preImu, imuInv_preImu]
  have hcache : (if preImuState.locked = false then
      updateGestureCache preImuState.cache idMatrix.m21 idMatrix.m20 0
      else preImuState.cache) = (⟨fun _ => 0, 2, 0⟩ : CacheState) := by
    rw [if_pos (show preImuState.locked = false from rfl)]
    show updateGestureCache ⟨fun _ => 0, 0, 0⟩ idMatrix.m21 idMatrix.m20 0 = _
    rw [show idMatrix.m21 = (0 : ℝ) from rfl, show idMatrix.m20 = (0 : ℝ) from rfl]
    exact updateGestureCache_zeroState 0 (by norm_num [GESTURE_CACHE_SIZE]) 0
  rw [hcache]
  rfl

lemma run_below : ∀ (k o : ℕ), o + 2 * k ≤ GESTURE_CACHE_SIZE →
    runFrom (belowState o) (List.replicate k (Ev.imu zeroQuat 4100)) =
      (belowState (o + 2 * k), []) := by
  intro k
  induction k with
  | zero =>
    intro o h
    rw [List.replicate_zero, runFrom_nil]
    norm_num
  | succ n ih =>
    intro o h
    rw [List.replicate_succ, runFrom_cons, step_below o (by unfold GESTURE_CACHE_SIZE at *; omega)]
    rw [ih (o + 2) (by omega)]
    have heq : o + 2 + 2 * n = o + 2 * (n + 1) := by ring
    rw [heq]
    simp

lemma run_emgPrefix : runFrom initCtrlState emgPrefixEvents = (preImuState, [Output.vibrate 1]) := by
  rfl

lemma run_c7Tail : runFrom preImuState c7TailEvents = (relockedState, [Output.lockChange true]) := by
  have hb : runFrom (belowState 2) (List.replicate 63 (Ev.imu zeroQuat 4100)) =
      (belowState GESTURE_CACHE_SIZE, []) := by
    rw [run_below 63 2 (by norm_num [GESTURE_CACHE_SIZE])]
    norm_num [GESTURE_CACHE_SIZE]
  have hlast : runFrom (belowState GESTURE_CACHE_SIZE) [Ev.imu zeroQuat 4100] =
      (relockedState, [Output.lockChange true]) := by
    rw [show ([Ev.imu zeroQuat 4100] : List Ev) = Ev.imu zeroQuat 4100 :: [] from rfl,
      runFrom_cons, step_below_full]
    simp [runFrom_nil]
  unfold c7TailEvents
  rw [runFrom_cons, step_preImu]
  simp only [runFrom_append, hb, hlast]
  simp

lemma run_c7 : runFrom initCtrlState c7Events = (relockedState, [Output.vibrate 1, Output.lockChange true]) := by
  unfold c7Events
  rw [runFrom_append, run_emgPrefix]
  simp [run_c7Tail]

lemma run_c10 : runFrom initCtrlState c10Events = (belowState 2, [Output.vibrate 1]) := by
  unfold c10Events
  rw [runFrom_append, run_emgPrefix]
  have h1 : runFrom preImuState [Ev.imu zeroQuat 4100] = (belowState 2, []) := by
    rw [show ([Ev.imu zeroQuat 4100] : List Ev) = Ev.imu zeroQuat 4100 :: [] from rfl,
      runFrom_cons, step_preImu]
    simp [runFrom_nil]
  simp [h1]

/-- C7 counterexample: in the run of c7Events the only EMG activity is
the calibration prefix, after which emgSum = 0 and emgSync = 800, so
every lock evaluation sees the ratio 0/800, below the threshold; the
trailing events are IMU samples only and leave emgSum and emgSync
unchanged, as the final state shows.  No sample with ratio at or above
the threshold ever occurs after sync, yet the run emits
Output.lockChange true and ends locked: the 65th below-threshold IMU
sample toggles the locked state through the buffer-overflow path,
refuting the claim that below-threshold samples cause no toggle until
the ratio reaches the threshold again. -/
theorem claim_C7_counterexample :
    (runFrom initCtrlState c7Events).2 = [Output.vibrate 1, Output.lockChange true] ∧
    (runFrom initCtrlState c7Events).1.locked = true ∧
    (runFrom initCtrlState c7Events).1.emgSum = 0 ∧
    (runFrom initCtrlState c7Events).1.emgSync = 800 ∧
    (runFrom initCtrlState emgPrefixEvents).1.locked = false ∧
    (runFrom initCtrlState emgPrefixEvents).1.emgSum = 0 ∧
    (runFrom initCtrlState emgPrefixEvents).1.emgSync = 800 := by
  rw [run_c7, run_emgPrefix]
  exact ⟨rfl, rfl, rfl, rfl, rfl, rfl, rfl⟩

/-- C10 counterexample: after the sync window elapses (the vibration in
the output list marks sync completion) the controller has never seen a
lock-toggle edge — the output list contains no lockChange and locked is
still false — yet the first IMU sample past the settle delay already
records an angle pair: the cache offset is 2, refuting both that the
controller enters a locked state when sync elapses and that no samples
are recorded before the first lock-toggle edge. -/
theorem claim_C10_counterexample :
    (runFrom initCtrlState c10Events).2 = [Output.vibrate 1] ∧
    (runFrom initCtrlState c10Events).1.locked = false ∧
    (runFrom initCtrlState c10Events).1.cache.gesture_cache_offset = 2 := by
  rw [run_c10]
  exact ⟨rfl, rfl, rfl⟩

/-! ## Step-level lock and gesture characterizations -/

lemma bool_not_false_eq_true (b : Bool) (h : ¬(b = false)) : b = true := by
  cases b <;> simp_all

lemma hIMU_gesture_mem (s : CtrlState) (q : Fin 4 → ℤ) (t : ℕ) (g : GestureType) :
    Output.gestureEvt g ∈ (handleIMUData s q t).2 ↔
      pastSyncWindow s t ∧ ¬ratioBelow s ∧ s.lock_toggle = true ∧ s.locked = false ∧
        g = processCacheData s.cache ∧ ¬(g = ARM_UNKNOWN) := by
  by_cases h1 : pastSyncWindow s t
  · by_cases h2 : ratioBelow s
    · have hout : Output.gestureEvt g ∉ (handleIMUData s q t).2 := by
        by_cases hdc : s.locked = false ∧ gestureBufferFull s.cache
        · rw [hIMU_below_discard s q t h1 h2 hdc.1 hdc.2]
          simp
        · by_cases hlt : s.lock_toggle = false
          · rw [hIMU_below_toggle s q t h1 h2 hdc hlt]
            simp
          · rw [hIMU_below_noop s q t h1 h2 hdc (bool_not_false_eq_true _ hlt)]
            simp
      constructor
      · intro h
        exact absurd h hout
      · rintro ⟨-, hr, -⟩
        exact absurd h2 hr
    · by_cases h3 : s.lock_toggle = true
      · by_cases h4 : s.locked = false
        · rw [hIMU_held_arm_unlocked s q t h1 h2 h3 h4]
          by_cases h5 : processCacheData s.cache = ARM_UNKNOWN
          · rw [if_pos h5]
            constructor
            · intro h
              simp at h
            · rintro ⟨-, -, -, -, rfl, hne⟩
              exact absurd h5 hne
          · rw [if_neg h5]
            constructor
            · intro h
              simp only [List.mem_singleton, Output.gestureEvt.injEq] at h
              refine ⟨h1, h2, h3, h4, h, ?_⟩
              rw [h]
              exact h5
            · rintro ⟨-, -, -, -, rfl, -⟩
              simp
        · rw [hIMU_held_arm_locked s q t h1 h2 h3 h4]
          constructor
          · intro h
            simp at h
          · rintro ⟨-, -, -, hl, -⟩
            exact absurd hl h4
      · rw [hIMU_held_noop s q t h1 h2 h3]
        constructor
        · intro h
          simp at h
        · rintro ⟨-, -, hl, -⟩
          exact absurd hl h3
  · rw [hIMU_preSync s q t h1]
    constructor
    · intro h
      simp at h
    · rintro ⟨hp, -⟩
      exact absurd hp h1

lemma hIMU_no_unknown_gesture (s : CtrlState) (q : Fin 4 → ℤ) (t : ℕ) :
    Output.gestureEvt ARM_UNKNOWN ∉ (handleIMUData s q t).2 := by
  rw [hIMU_gesture_mem]
  rintro ⟨-, -, -, -, -, h⟩
  exact h rfl

lemma run_no_unknown_gesture : ∀ (evs : List Ev) (s : CtrlState),
    Output.gestureEvt ARM_UNKNOWN ∉ (runFrom s evs).2 := by
  intro evs
  induction evs with
  | nil => intro s; rw [runFrom_nil]; simp
  | cons e tl ih =>
    intro s
    rw [runFrom_cons]
    simp only [List.mem_append, not_or]
    refine ⟨?_, ih (step s e).1⟩
    rcases e with ⟨d, t⟩ | ⟨q, t⟩
    · intro h
      have h2 : Output.gestureEvt ARM_UNKNOWN ∈ (handleEMGData s d t).2 := h
      rcases handleEMGData_outputs s d t with he | he <;> rw [he] at h2 <;> simp at h2
    · intro h
      exact hIMU_no_unknown_gesture s q t h

/-! ## Claim C9: the gesture callback -/

/-- C9: onGesture is never invoked with ARM_UNKNOWN on any input
sequence; on an IMU sample it is invoked (with the classifier result on
the current cache) exactly when the lock evaluation is active, the
ratio is at or above the threshold, the pose-held flag lock_toggle is
still set and the controller is unlocked, and the classifier result is
not ARM_UNKNOWN; EMG samples never invoke it. -/
theorem claim_C9_gesture_callback :
    (∀ evs : List Ev, Output.gestureEvt ARM_UNKNOWN ∉ (runFrom initCtrlState evs).2) ∧
    (∀ (s : CtrlState) (q : Fin 4 → ℤ) (t : ℕ) (g : GestureType),
      Output.gestureEvt g ∈ (step s (Ev.imu q t)).2 ↔
        pastSyncWindow s t ∧ ¬ratioBelow s ∧ s.lock_toggle = true ∧ s.locked = false ∧
          g = processCacheData s.cache ∧ ¬(g = ARM_UNKNOWN)) ∧
    (∀ (s : CtrlState) (d : Fin 8 → ℤ) (t : ℕ) (g : GestureType),
      Output.gestureEvt g ∉ (step s (Ev.emg d t)).2) := by
  refine ⟨fun evs => run_no_unknown_gesture evs initCtrlState,
    fun s q t g => hIMU_gesture_mem s q t g, fun s d t g => ?_⟩
  intro h
  have h2 : Output.gestureEvt g ∈ (handleEMGData s d t).2 := h
  rcases handleEMGData_outputs s d t with he | he <;> rw [he] at h2 <;> simp at h2

/-! ## Claim C8: overflow discard forces a re-lock -/

/-- C8: a below-threshold IMU sample arriving past the sync window while
the controller is unlocked with a full sample cache resets the cache
(the offset returns to 0, discarding the recording), re-locks the
controller in the same call (locked becomes true, the pose flag is
re-armed), emits exactly the lock callback with the new state, and
invokes no gesture callback for the discarded recording. -/
theorem claim_C8_overflow_relock :
    ∀ (s : CtrlState) (q : Fin 4 → ℤ) (t : ℕ),
      pastSyncWindow s t → ratioBelow s → s.locked = false → gestureBufferFull s.cache →
      (step s (Ev.imu q t)).1.cache.gesture_cache_offset = 0 ∧
      (step s (Ev.imu q t)).1.locked = true ∧
      (step s (Ev.imu q t)).1.lock_toggle = true ∧
      (step s (Ev.imu q t)).2 = [Output.lockChange true] ∧
      ∀ g : GestureType, Output.gestureEvt g ∉ (step s (Ev.imu q t)).2 := by
  intro s q t h1 h2 h3 h4
  have h := hIMU_below_discard s q t h1 h2 h3 h4
  simp only [step]
  rw [h]
  exact ⟨rfl, rfl, rfl, rfl, fun g => by simp⟩

/-- C8 witness: the conclusion at the concrete unlocked, calibrated
state with a full cache, every hypothesis discharged by evaluation. -/
theorem claim_C8_witness :
    (step (belowState GESTURE_CACHE_SIZE) (Ev.imu zeroQuat 4100)).1.cache.gesture_cache_offset = 0 ∧
    (step (belowState GESTURE_CACHE_SIZE) (Ev.imu zeroQuat 4100)).1.locked = true := by
  have h := claim_C8_overflow_relock (belowState GESTURE_CACHE_SIZE) zeroQuat 4100
    (pastSync_below _) (ratioBelow_below _) rfl rfl
  exact ⟨h.1, h.2.1⟩

lemma point_rightCache : point rightCache 0 = (1, 0) := by
  unfold point rightCache
  norm_num

lemma num_points_rightCache : num_points rightCache = 1 := rfl

lemma processCacheData_rightCache : processCacheData rightCache = ARM_RIGHT := by
  have hP := num_points_rightCache
  have hc : circleStage rightCache = none := by
    rw [circleStage_none_iff]
    rintro ⟨h, -⟩
    rw [hP] at h
    norm_num [GESTURE_CIRCLE_SAMPLES] at h
  have hxdev : x_deviation rightCache = 1 := by
    unfold x_deviation
    rw [hP]
    rw [Finset.sum_range_one, point_rightCache]
    norm_num [sqr]
  have hydev : y_deviation rightCache = 0 := by
    unfold y_deviation
    rw [hP]
    rw [Finset.sum_range_one, point_rightCache]
    norm_num [sqr]
  have hr : rotationStage rightCache = none := by
    rw [rotationStage_none_iff]
    rintro ⟨-, hx, -⟩
    rw [hxdev] at hx
    norm_num [ROTATION_MAX_VARIANCE] at hx
  have hdist : distance rightCache = 1 := by
    have hg : getSqrPointDist 0 0 (point rightCache (num_points rightCache - 1)).1
        (point rightCache (num_points rightCache - 1)).2 = 1 := by
      rw [hP]
      show getSqrPointDist 0 0 (point rightCache 0).1 (point rightCache 0).2 = 1
      rw [point_rightCache]
      unfold getSqrPointDist sqr
      norm_num
    unfold distance
    rw [hg, Real.sqrt_one]
  have hh : horizontalConditions rightCache := by
    refine ⟨by rw [hP]; norm_num, by rw [hxdev, hydev]; norm_num, Or.inl hydev, ?_⟩
    rw [hdist]
    norm_num [STRAIGHT_MIN_DISTANCE]
  have hxt : x_total rightCache = 1 := by
    unfold x_total
    rw [hP, Finset.sum_range_one, point_rightCache]
  refine processCacheData_straight _ _ hc hr ?_
  rw [straightStage_some_iff]
  refine Or.inl ⟨hh, ?_⟩
  rw [if_pos]
  rw [hxt]
  norm_num

lemma pastSync_heldRight : pastSyncWindow heldRightState 4100 :=
  ⟨rfl, by norm_num [heldRightState, belowState, EMG_SYNC_TIME, AFTER_SYNC_WAIT]⟩

lemma notBelow_heldRight : ¬ratioBelow heldRightState := by
  rintro ⟨-, h⟩
  have h2 : ((800 : ℤ) : ℝ) / ((800 : ℤ) : ℝ) < LOCK_TOGGLE_THRESHOLD := h
  norm_num [LOCK_TOGGLE_THRESHOLD] at h2

/-- C9 witness: the gesture callback fires with ARM_RIGHT at the
concrete held-edge state, obtained from the claim theorem with every
side condition evaluated. -/
theorem claim_C9_witness :
    Output.gestureEvt ARM_RIGHT ∈ (step heldRightState (Ev.imu zeroQuat 4100)).2 :=
  (claim_C9_gesture_callback.2.1 heldRightState zeroQuat 4100 ARM_RIGHT).mpr
    ⟨pastSync_heldRight, notBelow_heldRight, rfl, rfl,
      processCacheData_rightCache.symm, by simp⟩

/-! ## The pose edge: a held sample clears the flag, the release toggles -/

lemma bool_not_true_eq_false (b : Bool) (h : ¬(b = true)) : b = false := by
  cases b <;> simp_all

/-- every above-threshold IMU sample past the window leaves the pose
flag lock_toggle cleared: the arm branches of lines 127-129 clear it,
and in the remaining branch it was already false. -/
lemma hIMU_held_clears_flag (s : CtrlState) (q : Fin 4 → ℤ) (t : ℕ)
    (h1 : pastSyncWindow s t) (h2 : ¬ratioBelow s) :
    (handleIMUData s q t).1.lock_toggle = false := by
  by_cases h3 : s.lock_toggle = true
  · by_cases h4 : s.locked = false
    · rw [hIMU_held_arm_unlocked s q t h1 h2 h3 h4]
    · rw [hIMU_held_arm_locked s q t h1 h2 h3 h4]
  · rw [hIMU_held_noop s q t h1 h2 h3]
    exact bool_not_true_eq_false _ h3

lemma imuInv_heldRight : imuInv heldRightState zeroQuat = idMatrix := by
  simp [imuInv, heldRightState, belowState]

lemma imuLocal_heldRight : imuLocal heldRightState zeroQuat = idMatrix := by
  rw [imuLocal, imuInv_heldRight, uq2m_zeroQuat, mul_id_id]

lemma imuRoll_heldRight : imuRoll heldRightState zeroQuat = 0 := by
  rw [imuRoll, imuLocal_heldRight]
  show Real.arcsin 0 = 0
  exact Real.arcsin_zero

lemma processCacheData_heldRight : processCacheData heldRightState.cache = ARM_RIGHT :=
  processCacheData_rightCache

lemma step_heldRight :
    step heldRightState (Ev.imu zeroQuat 4100) =
      (edgeMidState, [Output.gestureEvt ARM_RIGHT]) := by
  have h := hIMU_held_arm_unlocked heldRightState zeroQuat 4100
    pastSync_heldRight notBelow_heldRight rfl rfl
  show handleIMUData heldRightState zeroQuat 4100 = _
  rw [h, imuLocal_heldRight, imuRoll_heldRight, imuInv_heldRight, processCacheData_heldRight]
  have hcache : updateGestureCache { heldRightState.cache with gesture_cache_offset := 0 }
      idMatrix.m21 idMatrix.m20 0 = (⟨fun _ => 0, 2, 0⟩ : CacheState) := by
    show updateGestureCache ⟨fun k => if k = 0 then (1 : ℝ) else 0, 0, 0⟩ 0 0 0 = _
    unfold updateGestureCache
    rw [if_pos (show (0 : ℕ) < GESTURE_CACHE_SIZE by norm_num [GESTURE_CACHE_SIZE])]
    congr 1
    funext k
    split_ifs with hk1 hk2 <;> simp [clip_zero, hk1]
  rw [hcache]
  rfl

lemma step_edgeMid : step edgeMidState (Ev.emg zeroVec 4101) = (edgeLowState, []) := by
  rfl

lemma pastSync_edgeLow : pastSyncWindow edgeLowState 4102 :=
  ⟨rfl, by norm_num [edgeLowState, belowState, EMG_SYNC_TIME, AFTER_SYNC_WAIT]⟩

lemma ratioBelow_edgeLow : ratioBelow edgeLowState := by
  refine ⟨by norm_num [edgeLowState, belowState], ?_⟩
  show (edgeLowState.emgSum : ℝ) / (edgeLowState.emgSync : ℝ) < LOCK_TOGGLE_THRESHOLD
  norm_num [edgeLowState, belowState, LOCK_TOGGLE_THRESHOLD]

lemma step_edgeLow_toggles :
    (step edgeLowState (Ev.imu zeroQuat 4102)).1.locked = true ∧
    (step edgeLowState (Ev.imu zeroQuat 4102)).2 = [Output.lockChange true] := by
  have hdc : ¬(edgeLowState.locked = false ∧ gestureBufferFull edgeLowState.cache) := by
    rintro ⟨-, hf⟩
    have h : (2 : ℕ) = GESTURE_CACHE_SIZE := hf
    norm_num [GESTURE_CACHE_SIZE] at h
  have h := hIMU_below_toggle edgeLowState zeroQuat 4102 pastSync_edgeLow ratioBelow_edgeLow
    hdc rfl
  constructor
  · show (handleIMUData edgeLowState zeroQuat 4102).1.locked = true
    rw [h]
    rfl
  · show (handleIMUData edgeLowState zeroQuat 4102).2 = _
    rw [h]
    rfl

lemma run_edge :
    (runFrom heldRightState edgeEvents).2 =
      [Output.gestureEvt ARM_RIGHT, Output.lockChange true] ∧
    (runFrom heldRightState edgeEvents).1.locked = true := by
  have ha : runFrom edgeLowState [Ev.imu zeroQuat 4102] =
      ((step edgeLowState (Ev.imu zeroQuat 4102)).1,
        (step edgeLowState (Ev.imu zeroQuat 4102)).2) := by
    rw [show ([Ev.imu zeroQuat 4102] : List Ev) = Ev.imu zeroQuat 4102 :: [] from rfl,
      runFrom_cons]
    simp [runFrom_nil]
  have hb : runFrom edgeMidState [Ev.emg zeroVec 4101, Ev.imu zeroQuat 4102] =
      ((step edgeLowState (Ev.imu zeroQuat 4102)).1,
        (step edgeLowState (Ev.imu zeroQuat 4102)).2) := by
    rw [show ([Ev.emg zeroVec 4101, Ev.imu zeroQuat 4102] : List Ev) =
      Ev.emg zeroVec 4101 :: [Ev.imu zeroQuat 4102] from rfl, runFrom_cons, step_edgeMid]
    simp [ha]
  have hc : runFrom heldRightState edgeEvents =
      ((step edgeLowState (Ev.imu zeroQuat 4102)).1,
        Output.gestureEvt ARM_RIGHT :: (step edgeLowState (Ev.imu zeroQuat 4102)).2) := by
    rw [show edgeEvents = Ev.imu zeroQuat 4100 ::
      [Ev.emg zeroVec 4101, Ev.imu zeroQuat 4102] from rfl, runFrom_cons, step_heldRight]
    simp [hb]
  rw [hc]
  constructor
  · show Output.gestureEvt ARM_RIGHT :: (step edgeLowState (Ev.imu zeroQuat 4102)).2 = _
    rw [step_edgeLow_toggles.2]
  · exact step_edgeLow_toggles.1

/-! ## Claim C7: the lock-toggle state machine, amended -/

/-- C7 amended: (1) EMG samples never change locked, never move the
pose flag lock_toggle and never emit the lock callback, and (2) neither
does any IMU sample before the sync plus settle window; after the
window, (3) a sample with ratio at or above the threshold never changes
locked and always leaves the pose flag cleared (lock_toggle = false) —
this is the threshold sample clearing the flag; (4) a below-threshold
sample with the flag cleared toggles locked exactly once, emits exactly
one lock callback with the new state, re-arms the flag, and on a toggle
into unlocked resets the cache before recording that sample (offset 2)
— so a ratio at-or-above-threshold sample followed by a below-threshold
sample toggles exactly once, since by (1)-(3) nothing re-arms the flag
in between; (5) a below-threshold sample with the flag still set
changes nothing — except (6) when the controller is unlocked with a
full cache, in which case the sample forces a re-lock toggle with its
own lock callback (the overflow path, the amendment to the claim);
and (7) a concrete complete edge: from the held state heldRightState
(unlocked, flag set), an above-threshold sample, an EMG sample dropping
the ratio and a below-threshold sample yield exactly one lock callback
and exactly one toggle, into locked. -/
theorem claim_C7_lock_machine_amended :
    (∀ (s : CtrlState) (d : Fin 8 → ℤ) (t : ℕ),
      (step s (Ev.emg d t)).1.locked = s.locked ∧
        (step s (Ev.emg d t)).1.lock_toggle = s.lock_toggle ∧
        ∀ b : Bool, Output.lockChange b ∉ (step s (Ev.emg d t)).2) ∧
    (∀ (s : CtrlState) (q : Fin 4 → ℤ) (t : ℕ), ¬pastSyncWindow s t →
      (step s (Ev.imu q t)).1.locked = s.locked ∧
        (step s (Ev.imu q t)).1.lock_toggle = s.lock_toggle ∧
        (step s (Ev.imu q t)).2 = []) ∧
    (∀ (s : CtrlState) (q : Fin 4 → ℤ) (t : ℕ), pastSyncWindow s t → ¬ratioBelow s →
      (step s (Ev.imu q t)).1.locked = s.locked ∧
        (step s (Ev.imu q t)).1.lock_toggle = false ∧
        ∀ b : Bool, Output.lockChange b ∉ (step s (Ev.imu q t)).2) ∧
    (∀ (s : CtrlState) (q : Fin 4 → ℤ) (t : ℕ), pastSyncWindow s t → ratioBelow s →
      s.lock_toggle = false →
      (step s (Ev.imu q t)).1.locked = !s.locked ∧
        (step s (Ev.imu q t)).2 = [Output.lockChange (!s.locked)] ∧
        (step s (Ev.imu q t)).1.lock_toggle = true ∧
        (s.locked = true → (step s (Ev.imu q t)).1.cache.gesture_cache_offset = 2)) ∧
    (∀ (s : CtrlState) (q : Fin 4 → ℤ) (t : ℕ), pastSyncWindow s t → ratioBelow s →
      s.lock_toggle = true → ¬(s.locked = false ∧ gestureBufferFull s.cache) →
      (step s (Ev.imu q t)).1.locked = s.locked ∧ (step s (Ev.imu q t)).2 = []) ∧
    (∀ (s : CtrlState) (q : Fin 4 → ℤ) (t : ℕ), pastSyncWindow s t → ratioBelow s →
      s.locked = false → gestureBufferFull s.cache →
      (step s (Ev.imu q t)).1.locked = true ∧
        (step s (Ev.imu q t)).2 = [Output.lockChange true]) ∧
    (heldRightState.locked = false ∧ heldRightState.lock_toggle = true ∧
      (runFrom heldRightState edgeEvents).2 =
        [Output.gestureEvt ARM_RIGHT, Output.lockChange true] ∧
      (runFrom heldRightState edgeEvents).1.locked = true) := by
  refine ⟨?_, ?_, ?_, ?_, ?_, ?_, ?_⟩
  · intro s d t
    refine ⟨handleEMGData_locked s d t, handleEMGData_lock_toggle s d t, fun b h => ?_⟩
    have h2 : Output.lockChange b ∈ (handleEMGData s d t).2 := h
    rcases handleEMGData_outputs s d t with he | he <;> rw [he] at h2 <;> simp at h2
  · intro s q t h1
    simp only [step]
    rw [hIMU_preSync s q t h1]
    exact ⟨rfl, rfl, rfl⟩
  · intro s q t h1 h2
    refine ⟨?_, hIMU_held_clears_flag s q t h1 h2, ?_⟩
    · simp only [step]
      by_cases h3 : s.lock_toggle = true
      · by_cases h4 : s.locked = false
        · rw [hIMU_held_arm_unlocked s q t h1 h2 h3 h4]
        · rw [hIMU_held_arm_locked s q t h1 h2 h3 h4]
      · rw [hIMU_held_noop s q t h1 h2 h3]
    · intro b
      simp only [step]
      by_cases h3 : s.lock_toggle = true
      · by_cases h4 : s.locked = false
        · rw [hIMU_held_arm_unlocked s q t h1 h2 h3 h4]
          split_ifs <;> simp
        · rw [hIMU_held_arm_locked s q t h1 h2 h3 h4]
          simp
      · rw [hIMU_held_noop s q t h1 h2 h3]
        simp
  · intro s q t h1 h2 hlt
    simp only [step]
    by_cases hdc : s.locked = false ∧ gestureBufferFull s.cache
    · rw [hIMU_below_discard s q t h1 h2 hdc.1 hdc.2]
      rw [hdc.1]
      refine ⟨rfl, rfl, rfl, fun hl => ?_⟩
      exact absurd hl (by simp)
    · rw [hIMU_below_toggle s q t h1 h2 hdc hlt]
      refine ⟨rfl, rfl, rfl, fun hl => ?_⟩
      have hcache : (if (!s.locked) = false then
          updateGestureCache (resetGestureCache s.cache)
            (imuLocal s q).m21 (imuLocal s q).m20 (imuRoll s q)
          else s.cache) = updateGestureCache (resetGestureCache s.cache)
            (imuLocal s q).m21 (imuLocal s q).m20 (imuRoll s q) := by
        rw [if_pos]
        rw [hl]
        simp
      show (if (!s.locked) = false then _ else s.cache).gesture_cache_offset = 2
      rw [hcache, updateGestureCache_offset]
      have h0 : (resetGestureCache s.cache).gesture_cache_offset = 0 := rfl
      rw [h0]
      norm_num [GESTURE_CACHE_SIZE]
  · intro s q t h1 h2 h3 hdc
    simp only [step]
    rw [hIMU_below_noop s q t h1 h2 hdc h3]
    exact ⟨rfl, rfl⟩
  · intro s q t h1 h2 h3 h4
    simp only [step]
    rw [hIMU_below_discard s q t h1 h2 h3 h4]
    exact ⟨rfl, rfl⟩
  · exact ⟨rfl, rfl, run_edge.1, run_edge.2⟩

/-- C7 witness: the claim theorem instantiated at concrete calibrated
states: an above-threshold sample at the held state clears the pose
flag, a below-threshold sample without pose flag and without overflow
changes nothing, and the overflow re-lock toggles at the full cache. -/
theorem claim_C7_witness :
    (step heldRightState (Ev.imu zeroQuat 4100)).1.lock_toggle = false ∧
    (step (belowState 0) (Ev.imu zeroQuat 4100)).1.locked = (belowState 0).locked ∧
    (step (belowState GESTURE_CACHE_SIZE) (Ev.imu zeroQuat 4100)).1.locked = true ∧
    (step (belowState GESTURE_CACHE_SIZE) (Ev.imu zeroQuat 4100)).2 =
      [Output.lockChange true] := by
  have hnd : ¬((belowState 0).locked = false ∧ gestureBufferFull (belowState 0).cache) := by
    rintro ⟨-, hf⟩
    have h : (0 : ℕ) = GESTURE_CACHE_SIZE := hf
    norm_num [GESTURE_CACHE_SIZE] at h
  refine ⟨?_, ?_, ?_, ?_⟩
  · exact (claim_C7_lock_machine_amended.2.2.1 heldRightState zeroQuat 4100
      pastSync_heldRight notBelow_heldRight).2.1
  · exact (claim_C7_lock_machine_amended.2.2.2.2.1 (belowState 0) zeroQuat 4100
      (pastSync_below 0) (ratioBelow_below 0) rfl hnd).1
  · exact (claim_C7_lock_machine_amended.2.2.2.2.2.1 (belowState GESTURE_CACHE_SIZE) zeroQuat
      4100 (pastSync_below _) (ratioBelow_below _) rfl rfl).1
  · exact (claim_C7_lock_machine_amended.2.2.2.2.2.1 (belowState GESTURE_CACHE_SIZE) zeroQuat
      4100 (pastSync_below _) (ratioBelow_below _) rfl rfl).2

/-! ## Claim C10: when recording happens, amended -/

/-- C10 amended: the controller starts unlocked (locked is a
zero-initialised static) and completing the sync window does not change
that — EMG samples never change locked or the sample cache; IMU samples
before the sync plus settle window never touch the cache; past the
window, a sample that ends with the controller locked never grows the
cache (its offset stays or is cleared); and consequently samples ARE
recorded before any lock-toggle edge, as the concrete run c10Events
shows: no lock callback was ever emitted, yet the cache holds one pair. -/
theorem claim_C10_recording_amended :
    initCtrlState.locked = false ∧
    (∀ (s : CtrlState) (d : Fin 8 → ℤ) (t : ℕ),
      (step s (Ev.emg d t)).1.locked = s.locked ∧ (step s (Ev.emg d t)).1.cache = s.cache) ∧
    (∀ (s : CtrlState) (q : Fin 4 → ℤ) (t : ℕ), ¬pastSyncWindow s t →
      (step s (Ev.imu q t)).1.cache = s.cache) ∧
    (∀ (s : CtrlState) (q : Fin 4 → ℤ) (t : ℕ), pastSyncWindow s t →
      (step s (Ev.imu q t)).1.locked = true →
      (step s (Ev.imu q t)).1.cache.gesture_cache_offset = s.cache.gesture_cache_offset ∨
        (step s (Ev.imu q t)).1.cache.gesture_cache_offset = 0) ∧
    (runFrom initCtrlState c10Events).2 = [Output.vibrate 1] ∧
    (runFrom initCtrlState c10Events).1.cache.gesture_cache_offset = 2 := by
  refine ⟨rfl, ?_, ?_, ?_, ?_, ?_⟩
  · intro s d t
    exact ⟨handleEMGData_locked s d t, handleEMGData_cache s d t⟩
  · intro s q t h1
    simp only [step]
    rw [hIMU_preSync s q t h1]
  · intro s q t h1 hl
    simp only [step] at hl ⊢
    by_cases h2 : ratioBelow s
    · by_cases hdc : s.locked = false ∧ gestureBufferFull s.cache
      · rw [hIMU_below_discard s q t h1 h2 hdc.1 hdc.2]
        exact Or.inr rfl
      · by_cases hlt : s.lock_toggle = false
        · rw [hIMU_below_toggle s q t h1 h2 hdc hlt] at hl ⊢
          have hlocked : (!s.locked) = true := hl
          left
          rw [if_neg]
          rw [hlocked]
          simp
        · rw [hIMU_below_noop s q t h1 h2 hdc (bool_not_false_eq_true _ hlt)] at hl ⊢
          have hlocked : s.locked = true := hl
          left
          rw [if_neg]
          rw [hlocked]
          simp
    · by_cases h3 : s.lock_toggle = true
      · by_cases h4 : s.locked = false
        · rw [hIMU_held_arm_unlocked s q t h1 h2 h3 h4] at hl
          have hlocked : s.locked = true := hl
          rw [h4] at hlocked
          exact absurd hlocked (by simp)
        · rw [hIMU_held_arm_locked s q t h1 h2 h3 h4]
          exact Or.inl rfl
      · rw [hIMU_held_noop s q t h1 h2 h3] at hl ⊢
        have hlocked : s.locked = true := hl
        left
        rw [if_neg]
        rw [hlocked]
        simp
  · rw [run_c10]
  · rw [run_c10]
    rfl

/-- C10 witness: the claim theorem instantiated at the startup state
(before sync no IMU sample touches the cache) and at the concrete full
unlocked cache (a sample ending locked clears the offset). -/
theorem claim_C10_witness :
    (step initCtrlState (Ev.imu zeroQuat 0)).1.cache = initCtrlState.cache ∧
    ((step (belowState GESTURE_CACHE_SIZE) (Ev.imu zeroQuat 4100)).1.cache.gesture_cache_offset =
        (belowState GESTURE_CACHE_SIZE).cache.gesture_cache_offset ∨
      (step (belowState GESTURE_CACHE_SIZE) (Ev.imu zeroQuat 4100)).1.cache.gesture_cache_offset =
        0) := by
  constructor
  · exact claim_C10_recording_amended.2.2.1 initCtrlState zeroQuat 0
      (by rintro ⟨h, -⟩; exact absurd h (by norm_num [initCtrlState]))
  · refine claim_C10_recording_amended.2.2.2.1 (belowState GESTURE_CACHE_SIZE) zeroQuat 4100
      (pastSync_below _) ?_
    rw [step_below_full]
    rfl
end
